import Mathlib

/-!
Shallow embedding of the Google Ads daily-audit engine
(scripts/daily-audit.mjs): the check catalog, the severity-weighted
scorer and grade derivation, the snapshot builder, the product
analyzer, the quick-win selector and the recommendation synthesizer.

Modelling conventions:
* JavaScript numbers are modelled as rationals; absent object fields
  and absent dataset entries are modelled as Option.none.
* JS truthiness on numbers (0 and undefined are falsy) and on strings
  (the empty string and undefined are falsy) is made explicit in the
  helper functions jsStr and jsOrQ.
* Math.round is jsRound, the floor of q + 1/2, which agrees with the
  JS semantics on all inputs arising here.
* Array.prototype.sort with a numeric comparator is modelled by the
  stable insertion sort from Mathlib; V8 sort is stable, and a stable
  sort with respect to a total preorder is unique, so this is
  extensionally the JS sort.
* Only the row fields that the audit logic reads are modelled.
-/

/-- Math.round of JS: nearest integer, half rounds toward positive
infinity; equals the floor of q + 1/2. -/
def jsRound (q : ℚ) : ℤ := Rat.floor (q + 1/2)

/-- Rat.floor agrees with the Int.floor of the FloorRing instance. -/
theorem ratFloor_eq_intFloor (q : ℚ) : q.floor = ⌊q⌋ := by
  rw [Rat.floor_def', Rat.floor_def]

theorem jsRound_eq_floor (q : ℚ) : jsRound q = ⌊q + 1/2⌋ := by
  rw [jsRound, ratFloor_eq_intFloor]

theorem jsRound_le_of_le {q : ℚ} {z : ℤ} (h : q ≤ z) : jsRound q ≤ z := by
  rw [jsRound_eq_floor]
  have h1 : ⌊q + 1/2⌋ ≤ ⌊(z : ℚ) + 1/2⌋ := Int.floor_le_floor (by linarith)
  have h2 : ⌊(z : ℚ) + 1/2⌋ = z + ⌊(1/2 : ℚ)⌋ := Int.floor_int_add z (1/2)
  have h3 : ⌊(1/2 : ℚ)⌋ = 0 := by norm_num
  omega

theorem le_jsRound_of_le {q : ℚ} {z : ℤ} (h : (z : ℚ) ≤ q) : z ≤ jsRound q := by
  rw [jsRound_eq_floor]
  exact Int.le_floor.mpr (by linarith)

theorem jsRound_mono {a b : ℚ} (h : a ≤ b) : jsRound a ≤ jsRound b := by
  rw [jsRound_eq_floor, jsRound_eq_floor]
  exact Int.floor_le_floor (by linarith)

/-- JS string coalescing (s || dflt): undefined and the empty string
fall back to the default. -/
def jsStr (o : Option String) (dflt : String) : String :=
  match o with
  | some s => if s = "" then dflt else s
  | none => dflt

/-- JS numeric coalescing (a || b) on possibly-absent numbers:
undefined and 0 are falsy. -/
def jsOrQ (a b : Option ℚ) : Option ℚ :=
  match a with
  | some v => if v = 0 then b else some v
  | none => b

/-- Number(x || 0): absent becomes 0. -/
def jsNum (o : Option ℚ) : ℚ := o.getD 0

/-- microsToDollars of the source: (Number(micros) || 0) / 1,000,000;
an absent value yields 0. -/
def microsToDollars (o : Option ℚ) : ℚ := o.getD 0 / 1000000

/-- safeArray of the source: a missing or non-array dataset entry is
treated as the empty array (none models both). -/
def safeArray {α : Type} (o : Option (List α)) : List α := o.getD []

/-- pct of the source: percentage of n over d rounded to two decimals,
0 when the denominator is falsy. -/
def pct (n d : ℚ) : ℚ :=
  if d = 0 then 0 else (jsRound (n / d * 10000) : ℚ) / 100

/-- ASCII lowercasing of one character, as toLowerCase does on the
account data appearing here. -/
def lowChar (c : Char) : Char :=
  if 'A' ≤ c ∧ c ≤ 'Z' then Char.ofNat (c.toNat + 32) else c

/-- String.prototype.toLowerCase, modelled characterwise (ASCII). -/
def lowerStr (s : String) : String := ⟨s.data.map lowChar⟩

def startsChars : List Char → List Char → Bool
  | _, [] => true
  | [], _ => false
  | c :: cs, d :: ds => (c = d) && startsChars cs ds

def hasSubChars : List Char → List Char → Bool
  | [], sub => sub.isEmpty
  | c :: cs, sub => startsChars (c :: cs) sub || hasSubChars cs sub

/-- String.prototype.includes: contiguous substring test. -/
def strContains (s sub : String) : Bool := hasSubChars s.data sub.data

/-- Number.prototype.toFixed(0) for the nonnegative amounts used in
finding texts. -/
def toFixed0 (q : ℚ) : String := toString (jsRound q)

/-- Number.prototype.toFixed(1) for the nonnegative amounts used in
finding texts. -/
def toFixed1 (q : ℚ) : String :=
  let n := jsRound (q * 10)
  toString (n / 10) ++ "." ++ toString ((n % 10).natAbs)

/-- Number.prototype.toFixed(2) for the nonnegative amounts used in
finding texts. -/
def toFixed2 (q : ℚ) : String :=
  let n := jsRound (q * 100)
  let r := (n % 100).natAbs
  toString (n / 100) ++ "." ++ (if r < 10 then "0" else "") ++ toString r

/-- Printing of a JS number inside a template literal; text-only use. -/
def qToString (q : ℚ) : String := toString q

-- ===== Data model: normalized rows, only the fields the logic reads =====

structure NetworkSettings where
  targetContentNetwork : Option Bool
deriving DecidableEq

structure GeoTargetTypeSetting where
  positiveGeoTargetType : Option String
deriving DecidableEq

structure Campaign where
  name : Option String
  status : Option String
  advertisingChannelType : Option String
  biddingStrategyType : Option String
  networkSettings : Option NetworkSettings
  geoTargetTypeSetting : Option GeoTargetTypeSetting
deriving DecidableEq

structure CampaignRow where
  campaign : Option Campaign
deriving DecidableEq

structure CampaignBudget where
  amountMicros : Option ℚ
deriving DecidableEq

structure CampaignBudgetSnake where
  amount_micros : Option ℚ
deriving DecidableEq

structure BudgetRow where
  campaignBudget : Option CampaignBudget
  campaign_budget : Option CampaignBudgetSnake
deriving DecidableEq

structure Metrics where
  impressions : Option ℚ
  clicks : Option ℚ
  conversions : Option ℚ
  conversionsValue : Option ℚ
  conversions_value : Option ℚ
  costMicros : Option ℚ
  cost_micros : Option ℚ
  searchImpressionShare : Option ℚ
  search_impression_share : Option ℚ
deriving DecidableEq

structure MetricsRow where
  metrics : Option Metrics
deriving DecidableEq

structure ConversionAction where
  name : Option String
  type : Option String
  status : Option String
  category : Option String
  includeInConversionsMetric : Option Bool
deriving DecidableEq

structure ConversionActionRow where
  conversionAction : Option ConversionAction
deriving DecidableEq

structure AdGroup where
  name : Option String
  status : Option String
deriving DecidableEq

structure AdGroupRow where
  adGroup : Option AdGroup
deriving DecidableEq

structure KeywordInfo where
  text : Option String
  matchType : Option String
deriving DecidableEq

structure QualityInfo where
  qualityScore : Option ℚ
deriving DecidableEq

structure AdGroupCriterion where
  keyword : Option KeywordInfo
  qualityInfo : Option QualityInfo
  status : Option String
deriving DecidableEq

structure KeywordRow where
  adGroupCriterion : Option AdGroupCriterion
deriving DecidableEq

structure Ad where
  type : Option String
deriving DecidableEq

structure AdGroupAd where
  ad : Option Ad
  status : Option String
  adStrength : Option String
deriving DecidableEq

structure AdRow where
  adGroupAd : Option AdGroupAd
deriving DecidableEq

structure Asset where
  name : Option String
  type : Option String
deriving DecidableEq

structure AssetRow where
  asset : Option Asset
deriving DecidableEq

structure Segments where
  productItemId : Option String
  productTitle : Option String
  product_title : Option String
deriving DecidableEq

structure ShoppingRow where
  segments : Option Segments
  metrics : Option Metrics
deriving DecidableEq

structure SharedSet where
  name : Option String
  memberCount : Option ℚ
deriving DecidableEq

structure NegativeListRow where
  sharedSet : Option SharedSet
deriving DecidableEq

structure UserList where
  type : Option String
  membershipStatus : Option String
deriving DecidableEq

structure UserListRow where
  userList : Option UserList
deriving DecidableEq

/-- The per-account dataset: one optional row list per GAQL query key.
none models a missing or malformed (non-array) entry. -/
structure AccountDataset where
  campaigns : Option (List CampaignRow)
  campaign_budgets : Option (List BudgetRow)
  account_metrics : Option (List MetricsRow)
  campaign_metrics : Option (List MetricsRow)
  conversion_actions : Option (List ConversionActionRow)
  ad_groups : Option (List AdGroupRow)
  keywords : Option (List KeywordRow)
  ads : Option (List AdRow)
  assets : Option (List AssetRow)
  geo_targeting : Option (List CampaignRow)
  shopping_performance : Option (List ShoppingRow)
  negative_lists : Option (List NegativeListRow)
  user_lists : Option (List UserListRow)
deriving DecidableEq

def emptyDataset : AccountDataset :=
  ⟨none, none, none, none, none, none, none, none, none, none, none, none, none⟩

-- ===== Check and category records =====

structure Check where
  id : String
  name : String
  severity : String
  result : String
  finding : String
deriving DecidableEq

structure Category where
  name : String
  weight : String
  checks : List Check
deriving DecidableEq

structure ScoredCategory where
  name : String
  weight : String
  checks : List Check
  score : Option ℚ
  grade : String
deriving DecidableEq

-- ===== Scoring =====

/-- SEVERITY table of the source with the JS fallback
(SEVERITY[severity] || 1.0): an unknown severity falls back to 1.0. -/
def severityWeight (severity : String) : ℚ :=
  if severity = "Critical" then 5
  else if severity = "High" then 3
  else if severity = "Medium" then 3/2
  else if severity = "Low" then 1/2
  else 1

/-- RESULT_SCORE table of the source with the JS fallback
(RESULT_SCORE[result] || 0): FAIL maps to 0.0 and an unknown result
falls back to 0 as well. -/
def resultScore (result : String) : ℚ :=
  if result = "PASS" then 1
  else if result = "WARNING" then 1/2
  else 0

/-- CATEGORY_WEIGHTS table of the source with the JS fallback
(CATEGORY_WEIGHTS[name] || 0). -/
def categoryWeight (name : String) : ℚ :=
  if name = "Conversion Tracking" then 25/100
  else if name = "Wasted Spend / Negatives" then 20/100
  else if name = "Account Structure" then 15/100
  else if name = "Keywords & Quality Score" then 15/100
  else if name = "Ads & Assets" then 15/100
  else if name = "Settings & Targeting + Bidding" then 10/100
  else 0

/-- scoreToGrade of the source; none models the null score. -/
def scoreToGrade (score : Option ℚ) : String :=
  match score with
  | none => "N/A"
  | some s =>
    if s ≥ 90 then "A"
    else if s ≥ 75 then "B"
    else if s ≥ 60 then "C"
    else if s ≥ 40 then "D"
    else "F"

/-- The checks of a category whose result is not N/A. -/
def validChecksOf (category : Category) : List Check :=
  category.checks.filter (fun c => c.result ≠ "N/A")

/-- The possible sum of scoreCategory: severity weights of the
non-N/A checks. -/
def possibleOf (cs : List Check) : ℚ :=
  (cs.map (fun c => severityWeight c.severity)).sum

/-- The earned sum of scoreCategory: result value times severity
weight over the non-N/A checks. -/
def earnedOf (cs : List Check) : ℚ :=
  (cs.map (fun c => resultScore c.result * severityWeight c.severity)).sum

/-- scoreCategory of the source: N/A checks are excluded; with none
left the score is null and the grade N/A; otherwise the earned over
possible ratio is scaled to 100 and rounded to one decimal. -/
def scoreCategory (category : Category) : Option ℚ × String :=
  let valid := validChecksOf category
  if valid.isEmpty then (none, "N/A")
  else
    let possible := possibleOf valid
    let earned := earnedOf valid
    let score : ℚ := if possible > 0 then (jsRound (earned / possible * 1000) : ℚ) / 10 else 0
    (some score, scoreToGrade (some score))

/-- calculateOverallScore of the source: categories with a null score
are skipped in both sums; with a zero total weight the result is
(0, F); otherwise the weighted mean is rounded to an integer. -/
def calculateOverallScore (categories : List ScoredCategory) : ℚ × String :=
  let totalWeight := (categories.map (fun cat =>
    match cat.score with | none => 0 | some _ => categoryWeight cat.name)).sum
  let weightedScore := (categories.map (fun cat =>
    match cat.score with | none => 0 | some s => s * categoryWeight cat.name)).sum
  if totalWeight = 0 then (0, "F")
  else
    let healthScore : ℚ := (jsRound (weightedScore / totalWeight) : ℚ)
    (healthScore, scoreToGrade (some healthScore))

/-- gradeVerdict of the source: fixed grade-to-sentence lookup. -/
def gradeVerdict (grade : String) : String :=
  if grade = "A" then "Well-optimized account"
  else if grade = "B" then "Good with improvement opportunities"
  else if grade = "C" then "Needs attention — notable issues"
  else if grade = "D" then "Poor — significant problems present"
  else if grade = "F" then "Urgent intervention required"
  else "Assessment pending"

-- ===== Audit checks: Conversion Tracking =====

/-- The keyword list of findDuplicatePatterns. -/
def dupKeywords : List String :=
  ["purchase", "buy", "order", "phone", "call", "lead", "form", "submit", "contact"]

/-- findDuplicatePatterns of the source: for each keyword, when more
than one (already lowercased) action name contains it, one pattern
string with the match count is appended. -/
def findDuplicatePatterns (names : List String) : List String :=
  dupKeywords.foldl (fun patterns kw =>
    let hits := names.filter (fun n => strContains n kw)
    if hits.length > 1 then
      patterns ++ [toString hits.length ++ "x \"" ++ kw ++ "\" actions"]
    else patterns) []

/-- Accessor (r.conversionAction?.f || two-quote empty default). -/
def caField (r : ConversionActionRow) (f : ConversionAction → Option String) : String :=
  jsStr (r.conversionAction.bind f) ""

/-- Insertion-ordered counting map, modelling a JS object used as a
string-keyed counter (insertion order preserved). -/
def bumpCount (m : List (String × ℕ)) (k : String) : List (String × ℕ) :=
  if m.any (fun p => p.1 == k) then
    m.map (fun p => if p.1 = k then (p.1, p.2 + 1) else p)
  else m ++ [(k, 1)]

def categoryMixOf (convActions : List ConversionActionRow) : List (String × ℕ) :=
  convActions.foldl (fun m r =>
    bumpCount m (jsStr (r.conversionAction.bind (·.category)) "UNKNOWN")) []

def microCategories : List String :=
  ["PAGE_VIEW", "ADD_TO_CART", "BEGIN_CHECKOUT", "GET_DIRECTIONS", "ENGAGEMENT", "SUBSCRIBE_PAID", "OTHER"]

/-- The lowercased conversion-action names fed to the duplicate
detector by checkConversionTracking. -/
def ctActionNames (convActions : List ConversionActionRow) : List String :=
  convActions.map (fun r => lowerStr (caField r (·.name)))

/-- Sum of 30-day conversions over the account metric rows. -/
def totalConvOf (acctMetrics : List MetricsRow) : ℚ :=
  (acctMetrics.map (fun r => (r.metrics.bind (·.conversions)).getD 0)).sum

/-- checkConversionTracking of the source. -/
def checkConversionTracking (data : AccountDataset) : Category :=
  let convActions := safeArray data.conversion_actions
  let acctMetrics := safeArray data.account_metrics
  let totalConv := totalConvOf acctMetrics
  let convCount := convActions.length
  let hasEnhanced := convActions.any (fun r =>
    caField r (·.type) == "UPLOAD_CLICKS" || caField r (·.type) == "UPLOAD_CALLS")
  let hasServerSide := convActions.any (fun r =>
    caField r (·.type) == "UPLOAD_CLICKS" || caField r (·.type) == "UPLOAD_CALLS" ||
    caField r (·.type) == "STORE_SALES_DIRECT_UPLOAD")
  let categoryMix := categoryMixOf convActions
  let primaryActions := convActions.filter (fun r =>
    r.conversionAction.bind (·.includeInConversionsMetric) == some true)
  let microAsPrimary := primaryActions.filter (fun r =>
    microCategories.contains (jsStr (r.conversionAction.bind (·.category)) ""))
  let actionNames := ctActionNames convActions
  let duplicatePatterns := findDuplicatePatterns actionNames
  let hasGA4 := convActions.any (fun r =>
    caField r (·.type) == "GOOGLE_ANALYTICS_4" || strContains (lowerStr (caField r (·.name))) "ga4")
  let activeActions := convActions.filter (fun r => caField r (·.status) == "ENABLED")
  let checks : List Check := [
    { id := "G42", name := "Conversion actions defined", severity := "Critical",
      result := if convCount > 0 then "PASS" else "FAIL",
      finding := if convCount > 0 then
          toString convCount ++ " conversion actions configured. Without conversion tracking, Google cannot optimize bids, and all campaign data becomes unreliable for decision-making."
        else
          "CRITICAL: No conversion actions defined. Google Ads cannot optimize campaigns without conversion data — every dollar spent is essentially unguided. Set up purchase, lead form, or phone call tracking immediately." },
    { id := "G43", name := "Enhanced conversions enabled", severity := "Critical",
      result := if hasEnhanced then "PASS" else (if totalConv < 30 then "FAIL" else "WARNING"),
      finding := if hasEnhanced then
          "Enhanced conversions or offline import detected — this recovers conversion data lost due to cookie restrictions and privacy changes, improving Smart Bidding accuracy by 5-15%."
        else
          "Not enabled — with only " ++ toString (jsRound totalConv) ++ " conversions/month, every lost signal significantly degrades bid optimization. Enhanced Conversions uses hashed first-party data (email, phone) to recover 5-15% of conversions lost to cookie restrictions. Enable in Google Ads > Goals > Conversions > Settings." },
    { id := "G44", name := "Server-side tracking", severity := "High",
      result := if hasServerSide then "PASS" else "FAIL",
      finding := if hasServerSide then
          "Server-side or offline conversion import active — this provides more reliable data than client-side tracking alone, as it bypasses ad blockers and browser restrictions."
        else
          "No server-side tracking detected. Browser-based tracking misses 10-25% of conversions due to ad blockers, ITP, and cookie restrictions. Implement server-side GTM or Google Ads API conversion imports to close this data gap and give Smart Bidding more accurate signals." },
    { id := "G45", name := "Consent Mode v2 (EU/EEA)", severity := "Critical", result := "N/A",
      finding := "EU targeting unclear from available data. If targeting EU/EEA users, Consent Mode v2 is legally required since March 2024 and enables conversion modeling for consenting users." },
    { id := "G46", name := "Conversion window appropriate", severity := "Medium",
      result := if convCount > 0 then "WARNING" else "N/A",
      finding := if convCount > 0 then
          toString categoryMix.length ++ " conversion categories detected (" ++
          String.intercalate ", " (categoryMix.map (fun p => toString p.2 ++ "x " ++ p.1)) ++
          "). Verify the conversion window matches your sales cycle — high-ticket items need 60-90 day windows, while impulse purchases only need 7-30 days."
        else "No conversions to assess window settings." },
    { id := "G47", name := "Micro vs macro separation", severity := "High",
      result := if microAsPrimary.length = 0 then "PASS"
        else (if microAsPrimary.length ≤ 2 then "WARNING" else "FAIL"),
      finding := if microAsPrimary.length = 0 then
          "Good separation — only macro conversions (purchases, leads, calls) are set as Primary. This ensures Smart Bidding optimizes for real business outcomes, not inflated micro-actions."
        else
          toString microAsPrimary.length ++ " micro/irrelevant actions set as Primary (" ++
          (String.intercalate ", " (microAsPrimary.map (fun r => caField r (·.name)))).take 100 ++
          "). This inflates conversion counts and misleads Smart Bidding — it optimizes for page views or add-to-carts instead of actual revenue. Set these to Secondary and keep only Purchase/Lead/Call as Primary." },
    { id := "G48", name := "Attribution model", severity := "Medium", result := "N/A",
      finding := "Cannot verify attribution model via API. Google now defaults to data-driven attribution which uses machine learning to distribute credit. Verify in Settings > Conversions that data-driven is selected for primary actions." },
    { id := "G49", name := "Conversion value assignment", severity := "High",
      result := if primaryActions.length > 0 then "WARNING" else "N/A",
      finding := if primaryActions.length > 0 then
          toString primaryActions.length ++ " primary actions configured. Verify that dynamic values are set (not static $1 defaults). Without accurate values, Target ROAS bidding cannot work — Google needs real revenue data to optimize for profit, not just conversion count."
        else "No primary actions to assess." },
    { id := "G-CT1", name := "No duplicate counting", severity := "Critical",
      result := if duplicatePatterns.length = 0 then "PASS"
        else (if duplicatePatterns.length ≤ 1 then "WARNING" else "FAIL"),
      finding := if duplicatePatterns.length = 0 then
          "No obvious duplicate conversion actions. Each conversion type is tracked once, ensuring accurate reporting and Smart Bidding optimization."
        else
          "Potential duplicates found: " ++ String.intercalate "; " duplicatePatterns ++
          ". Duplicate tracking inflates conversion counts by 2-3x, making CPA appear artificially low and causing Smart Bidding to overbid. Remove duplicates and keep only one source per conversion type (prefer GA4 over tag-based tracking)." },
    { id := "G-CT2", name := "GA4 linked and flowing", severity := "High",
      result := if hasGA4 then "PASS" else "WARNING",
      finding := if hasGA4 then
          "GA4 conversion actions detected and linked. GA4 provides cross-device tracking, better attribution modeling, and audience data that improves targeting across campaigns."
        else
          "No GA4 conversion actions found. Linking GA4 to Google Ads enables cross-device conversion tracking, richer audience insights, and data-driven attribution. Go to GA4 Admin > Google Ads Links to connect." },
    { id := "G-CT3", name := "Google Tag firing", severity := "Critical",
      result := if activeActions.length > 0 ∧ totalConv > 0 then "PASS"
        else (if activeActions.length > 0 then "WARNING" else "FAIL"),
      finding := if activeActions.length > 0 ∧ totalConv > 0 then
          toString activeActions.length ++ " active actions recording " ++ toString (jsRound totalConv) ++ " conversions in 30d. Tags are firing and data is flowing."
        else (if activeActions.length > 0 then
          toString activeActions.length ++ " active actions but only " ++ toString (jsRound totalConv) ++ " conversions in 30d — verify tags are firing correctly using Google Tag Assistant or Chrome DevTools Network tab. Low conversion counts may indicate broken tags, incorrect triggers, or landing page issues."
        else
          "No active conversion actions. All campaign optimization is blind without conversion tracking. Check Google Tag Manager for proper tag configuration and verify the Google Ads conversion tag fires on your conversion pages.") }
  ]
  { name := "Conversion Tracking", weight := "25%", checks := checks }

-- ===== Audit checks: Wasted Spend / Negatives =====

/-- Accessor (r.campaign?.f || two-quote empty default). -/
def campField (r : CampaignRow) (f : Campaign → Option String) : String :=
  jsStr (r.campaign.bind f) ""

/-- checkWastedSpend of the source. -/
def checkWastedSpend (data : AccountDataset) : Category :=
  let campaigns := safeArray data.campaigns
  let negLists := safeArray data.negative_lists
  let products := safeArray data.shopping_performance
  let hasActiveSearch := campaigns.any (fun r =>
    campField r (·.advertisingChannelType) == "SEARCH" && campField r (·.status) == "ENABLED")
  let hasActiveShopping := campaigns.any (fun r =>
    (campField r (·.advertisingChannelType) == "SHOPPING" ||
     campField r (·.advertisingChannelType) == "PERFORMANCE_MAX") &&
    campField r (·.status) == "ENABLED")
  let listCount := negLists.length
  let totalNegKw : ℚ := (negLists.map (fun r => (r.sharedSet.bind (·.memberCount)).getD 0)).sum
  let checks : List Check :=
    [{ id := "G13", name := "Search term audit recency", severity := "Critical",
       result := if hasActiveSearch then "WARNING" else (if hasActiveShopping then "WARNING" else "N/A"),
       finding := if hasActiveSearch then
           "Active search campaigns detected — search terms should be reviewed weekly. Google matches queries broadly, and without regular reviews, 20-40% of spend typically goes to irrelevant searches. Check Insights > Search Terms for the last 7 days and add negatives for any non-converting, irrelevant terms."
         else (if hasActiveShopping then
           "Shopping/PMax active — search terms should be reviewed bi-weekly via Insights > Search Terms. Even Shopping campaigns can match to irrelevant product queries."
         else "No active search/shopping campaigns.") },
     { id := "G14", name := "Negative keyword lists exist", severity := "Critical",
       result := if listCount ≥ 3 then "PASS" else (if listCount > 0 then "WARNING" else "FAIL"),
       finding := if listCount > 0 then
           toString listCount ++ " list(s) with " ++ qToString totalNegKw ++ " total keywords. " ++
           (if listCount ≥ 3 then "Good coverage with themed lists."
            else "Need at least 3 themed lists (e.g., Competitors, Job Seekers, Irrelevant Services) to properly filter traffic. A well-maintained negative list typically saves 15-20% of wasted spend.")
         else
           "CRITICAL: No negative keyword lists exist. Without negatives, campaigns match to irrelevant searches — typically wasting 20-40% of budget. Create lists immediately: (1) Competitor names, (2) \"free/cheap/DIY\" terms, (3) Job-related terms like \"salary/hiring/career\"." },
     { id := "G15", name := "Account-level negatives applied", severity := "High",
       result := if listCount > 0 then "WARNING" else "FAIL",
       finding := if listCount > 0 then
           "Negative keyword lists exist — verify they are applied to ALL active campaigns including Shopping and PMax. Unattached lists provide zero protection. Check Tools > Shared Library > Negative Keyword Lists."
         else
           "No negative keyword lists exist to apply. Build and attach lists to all campaigns to prevent irrelevant traffic from consuming budget." }] ++
    (if products.length > 0 then
      let zeroConvProducts := products.filter (fun r => (r.metrics.bind (·.conversions)).getD 0 == 0)
      let zeroConvSpend : ℚ := (zeroConvProducts.map (fun r => microsToDollars (r.metrics.bind (·.costMicros)))).sum
      let totalSpend : ℚ := (products.map (fun r => microsToDollars (r.metrics.bind (·.costMicros)))).sum
      let wastePct := pct zeroConvSpend totalSpend
      [{ id := "G16", name := "Wasted spend on irrelevant terms", severity := "Critical",
         result := if wastePct < 20 then "PASS" else (if wastePct < 40 then "WARNING" else "FAIL"),
         finding := "~" ++ qToString wastePct ++ "% of top product spend ($" ++ toString (jsRound zeroConvSpend) ++ ") goes to zero-conversion products. " ++
           (if wastePct > 30 then
             "This is a significant budget leak — reallocate spend from zero-converting products to proven winners. Use product group subdivisions to exclude or lower bids on non-performers, and increase bids on high-ROAS products."
            else
             "Monitor these products weekly and pause any that remain at zero conversions after 2x the average CPA in spend.") }]
     else
      [{ id := "G16", name := "Wasted spend on irrelevant terms", severity := "Critical",
         result := if hasActiveSearch then "WARNING" else "N/A",
         finding := if hasActiveSearch then
             "Search active — review the Search Terms report for irrelevant queries consuming budget. Sort by cost descending and look for zero-conversion terms with significant spend."
           else "No search/shopping data to assess." }]) ++
    [{ id := "G17", name := "Broad match + smart bidding pairing", severity := "Critical",
       result := if hasActiveSearch then "WARNING" else "N/A",
       finding := if hasActiveSearch then
           "Verify broad match keywords are paired with Smart Bidding (tROAS or tCPA). Broad match without Smart Bidding causes uncontrolled query expansion and wasted spend. Google's AI needs Smart Bidding to constrain broad match effectively."
         else "No active search campaigns." },
     { id := "G18", name := "Close variant pollution", severity := "High", result := "N/A",
       finding := "Requires search term report analysis. Close variants can cause exact/phrase match keywords to match unintended queries — review Search Terms for unexpected matches." },
     { id := "G19", name := "Search term visibility", severity := "Medium",
       result := if hasActiveSearch then "WARNING" else "N/A",
       finding := if hasActiveSearch then
           "Google only shows ~30-40% of actual search terms. Review the visible terms regularly and use scripts or third-party tools to maximize visibility into what queries are triggering your ads."
         else "No active search campaigns." },
     { id := "G-WS1", name := "Zero-conversion keywords", severity := "High",
       result := if hasActiveSearch then "WARNING" else "N/A",
       finding := if hasActiveSearch then
           "Review keywords that have spent more than 2x your target CPA without converting. These should be paused or moved to exact match with lower bids. Zero-conversion keywords are the #1 source of wasted search spend."
         else "No active search campaigns." }]
  { name := "Wasted Spend / Negatives", weight := "20%", checks := checks }

-- ===== Audit checks: Account Structure =====

def isSpc (c : Char) : Bool := c == ' ' || c == '\t' || c == '\n' || c == '\r'

/-- String.prototype.trim, modelled on the char list. -/
def jsTrim (s : String) : String :=
  ⟨((s.data.dropWhile isSpc).reverse.dropWhile isSpc).reverse⟩

/-- First segment of a campaign name split on the characters
dash, underscore, pipe and colon (split(...)[0]). -/
def firstSegment (n : String) : String :=
  ⟨n.data.takeWhile (fun c => !(c == '-' || c == '_' || c == '|' || c == ':'))⟩

/-- First row of the account metrics and its raw impression-share
field (acctMetrics[0]?.metrics?.searchImpressionShare). -/
def sisRawOf (acctMetrics : List MetricsRow) : Option ℚ :=
  acctMetrics.head?.bind (fun r => r.metrics.bind (·.searchImpressionShare))

/-- sisValue of checkAccountStructure and checkSettingsTargeting:
sis ? Math.round(Number(sis) * 100) : null. A present zero share is
falsy in JS and yields null. -/
def sisValueOf (acctMetrics : List MetricsRow) : Option ℤ :=
  match sisRawOf acctMetrics with
  | some v => if v = 0 then none else some (jsRound (v * 100))
  | none => none

/-- JS truthiness of a nullable integer (null and 0 are falsy). -/
def jsTruthyZ (o : Option ℤ) : Bool :=
  match o with
  | some z => z != 0
  | none => false

/-- checkAccountStructure of the source. -/
def checkAccountStructure (data : AccountDataset) : Category :=
  let campaigns := safeArray data.campaigns
  let adGroups := safeArray data.ad_groups
  let acctMetrics := safeArray data.account_metrics
  let campaignBudgets := safeArray data.campaign_budgets
  let geoTargeting := safeArray data.geo_targeting
  let enabledCampaigns := campaigns.filter (fun r => campField r (·.status) == "ENABLED")
  let allCampaignNames := campaigns.map (fun r => campField r (·.name))
  let prefixes := (allCampaignNames.map (fun n => jsTrim (firstSegment n))).filter (fun p => p ≠ "")
  let uniquePrefixes := prefixes.eraseDups
  let typeCount := campaigns.foldl (fun m r =>
    bumpCount m (jsStr (r.campaign.bind (·.advertisingChannelType)) "UNKNOWN")) []
  let totalCampaigns := campaigns.length
  let hasBrand := campaigns.any (fun r =>
    let name := lowerStr (campField r (·.name))
    strContains name "brand" && !(strContains name "non-brand") && !(strContains name "non brand"))
  let hasPMax := campaigns.any (fun r => campField r (·.advertisingChannelType) == "PERFORMANCE_MAX")
  let pmaxEnabled := campaigns.any (fun r =>
    campField r (·.advertisingChannelType) == "PERFORMANCE_MAX" && campField r (·.status) == "ENABLED")
  let hasActiveSearch := enabledCampaigns.any (fun r => campField r (·.advertisingChannelType) == "SEARCH")
  let totalBudget : ℚ := (campaignBudgets.map (fun r =>
    microsToDollars (r.campaignBudget.bind (·.amountMicros)))).sum
  let totalSpend : ℚ := (acctMetrics.map (fun r =>
    microsToDollars (r.metrics.bind (·.costMicros)))).sum
  let avgDailySpend := totalSpend / 30
  let sisValue := sisValueOf acctMetrics
  let geoTypes := geoTargeting.map (fun r =>
    jsStr ((r.campaign.bind (·.geoTargetTypeSetting)).bind (·.positiveGeoTargetType)) "")
  let hasPresenceOnly := geoTypes.any (fun t => t == "PRESENCE")
  let hasPresenceOrInterest := geoTypes.any (fun t => t == "PRESENCE_OR_INTEREST" || t == "SEARCH_INTEREST")
  let displayOn := enabledCampaigns.filter (fun r =>
    campField r (·.advertisingChannelType) == "SEARCH" &&
    (r.campaign.bind (·.networkSettings)).bind (·.targetContentNetwork) == some true)
  let checks : List Check := [
    { id := "G01", name := "Campaign naming convention", severity := "Medium",
      result := if uniquePrefixes.length ≤ 3 then "PASS"
        else (if uniquePrefixes.length ≤ 5 then "WARNING" else "FAIL"),
      finding := toString uniquePrefixes.length ++ " naming prefix(es) across " ++ toString campaigns.length ++ " campaigns. " ++
        (if uniquePrefixes.length > 3 then
          "Inconsistent naming suggests multiple managers over time. Adopt a standard like \"[Type] - [Goal] - [Targeting]\" (e.g., \"Search - Brand - US\") for easier management and reporting."
         else "Consistent naming convention in place — makes filtering, reporting, and management significantly easier.") },
    { id := "G02", name := "Ad group naming convention", severity := "Medium",
      result := if adGroups.length < 50 then "PASS" else "WARNING",
      finding := toString adGroups.length ++ " total ad groups. " ++
        (if adGroups.length > 100 then
          "High ad group count increases management overhead and may indicate over-segmentation. Consolidate where possible — Google's AI performs better with more data per ad group."
         else "Manageable ad group count.") },
    { id := "G03", name := "Single theme ad groups", severity := "High",
      result := if adGroups.length > 0 then "WARNING" else "N/A",
      finding := if adGroups.length > 0 then
          "Verify each ad group contains tightly themed keywords (STAGs). Mixed themes reduce Quality Score because ad copy cannot match all keywords equally, increasing CPC by 50-400%. Each ad group should target one core intent."
        else "No ad groups to assess." },
    { id := "G04", name := "Campaign count per objective", severity := "High",
      result := if totalCampaigns ≤ 10 then "PASS" else (if totalCampaigns ≤ 20 then "WARNING" else "FAIL"),
      finding := toString totalCampaigns ++ " campaigns: " ++
        String.intercalate ", " (typeCount.map (fun p => toString p.2 ++ " " ++ p.1)) ++ ". " ++
        (if totalCampaigns > 20 then
          "Excessive campaign fragmentation dilutes budget and data across too many campaigns, preventing Smart Bidding from accumulating enough conversion signals. Consolidate to 5-10 focused campaigns for better algorithmic performance."
         else if totalCampaigns > 10 then
          "Consider consolidating to give Smart Bidding more data per campaign."
         else "Healthy campaign count — sufficient data per campaign for optimization.") },
    { id := "G05", name := "Brand vs Non-Brand separation", severity := "Critical",
      result := if hasBrand then "PASS" else "FAIL",
      finding := if hasBrand then
          "Brand campaign exists — this protects branded search terms from competitors and typically achieves 30-50x ROAS. Ensure brand terms are excluded from non-brand campaigns to prevent cannibalization."
        else
          "CRITICAL: No brand campaign exists. Competitors can bid on your brand name and steal clicks at a low cost. Brand campaigns typically have 30-50x ROAS with $0.50-$1.50 CPCs. Create a dedicated brand Search campaign immediately with exact and phrase match brand keywords." },
    { id := "G06", name := "PMax present for eligible accounts", severity := "Medium",
      result := if pmaxEnabled then "PASS" else (if hasPMax then "WARNING" else "FAIL"),
      finding := if pmaxEnabled then
          "PMax campaign active — provides cross-channel reach (Search, Display, YouTube, Gmail, Maps, Discover) with automated asset optimization. Monitor search term insights to ensure it targets relevant queries."
        else (if hasPMax then
          "PMax campaigns exist but all paused. PMax uses Google's full ad inventory and AI-driven optimization. If paused due to poor performance, review asset groups and audience signals before relaunching."
        else
          "No PMax campaigns. For e-commerce and lead gen, PMax often outperforms standard campaigns by leveraging Google's full inventory. Consider launching with strong asset groups and audience signals.") },
    { id := "G07", name := "Search + PMax overlap", severity := "High",
      result := if hasActiveSearch && pmaxEnabled then "WARNING" else "N/A",
      finding := if hasActiveSearch && pmaxEnabled then
          "Both Search and PMax active — PMax takes priority for exact match queries, which can cannibalize Search campaigns. Monitor both carefully, use brand exclusions in PMax, and compare incremental performance."
        else "No concurrent Search + PMax running." },
    { id := "G08", name := "Budget allocation matches priority", severity := "High",
      result := if enabledCampaigns.length ≤ 1 ∧ jsTruthyZ sisValue = true ∧ sisValue.getD 0 < 50 then "FAIL"
        else (if enabledCampaigns.length > 0 then "WARNING" else "N/A"),
      finding := toString enabledCampaigns.length ++ " active campaign(s), $" ++ toString (jsRound totalBudget) ++ "/day budget" ++
        (if jsTruthyZ sisValue then ", Search Impression Share " ++ toString (sisValue.getD 0) ++ "%" else "") ++ ". " ++
        (if jsTruthyZ sisValue = true ∧ sisValue.getD 0 < 50 then
          "Capturing only " ++ toString (sisValue.getD 0) ++ "% of available impressions means " ++ toString (100 - sisValue.getD 0) ++ "% of potential customers never see your ads. Consider increasing budget on proven campaigns or consolidating to focus spend."
         else "Review budget allocation to ensure top-performing campaigns receive the most budget.") },
    { id := "G09", name := "Campaign daily budget vs spend", severity := "Medium",
      result := if totalBudget > 0 ∧ avgDailySpend > 0 then
          (if avgDailySpend / totalBudget > 85/100 then "PASS" else "WARNING")
        else "N/A",
      finding := if totalBudget > 0 then
          "$" ++ toString (jsRound totalBudget) ++ " daily budget, ~$" ++ toFixed0 avgDailySpend ++ " actual daily spend. " ++
          (if avgDailySpend / totalBudget < 85/100 then
            "Under-delivery indicates targeting is too narrow, bids too low, or Quality Score issues are limiting ad eligibility. Check keyword status, ad approval, and bid competitiveness."
           else "Budget utilization is healthy.")
        else "No budget data available." },
    { id := "G10", name := "Ad schedule configured", severity := "Low", result := "N/A",
      finding := "Ad schedule review requires campaign-level schedule data. Consider dayparting if conversion rates vary significantly by hour — analyze hourly performance in the Time report." },
    { id := "G11", name := "Geographic targeting accuracy", severity := "High",
      result := if hasPresenceOrInterest then "FAIL" else (if hasPresenceOnly then "PASS" else "WARNING"),
      finding := if hasPresenceOrInterest then
          "CRITICAL: Using \"Presence or Interest\" geo targeting, which shows ads to people merely interested in your location — not physically there. For local businesses, this wastes 10-30% of budget on users who will never convert. Switch to \"Presence: People in or regularly in your targeted locations\" in campaign Settings > Locations > Location options."
        else (if hasPresenceOnly then
          "Correctly using \"Presence\" targeting — ads only shown to people physically in your target locations, minimizing wasted spend on out-of-area users."
        else
          "Geo targeting type could not be detected. Verify in campaign Settings > Locations that \"Presence\" is selected.") },
    { id := "G12", name := "Network settings", severity := "High",
      result := if displayOn.length > 0 then "FAIL" else (if enabledCampaigns.length > 0 then "PASS" else "N/A"),
      finding := if displayOn.length > 0 then
          toString displayOn.length ++ " Search campaign(s) have Display Network enabled. Display Network traffic from Search campaigns is typically low-quality with <0.5% CTR and poor conversion rates. Turn this off in campaign Settings > Networks — use dedicated Display campaigns if you want Display reach."
        else
          "Network settings properly configured — Search campaigns are not leaking budget to Display Network." }
  ]
  { name := "Account Structure", weight := "15%", checks := checks }

-- ===== Audit checks: Keywords & Quality Score =====

/-- checkKeywordsQS of the source: with no active search campaign or
no keywords, the three checks are returned early with result N/A. -/
def checkKeywordsQS (data : AccountDataset) : Category :=
  let keywords := safeArray data.keywords
  let campaigns := safeArray data.campaigns
  let hasActiveSearch := campaigns.any (fun r =>
    campField r (·.advertisingChannelType) == "SEARCH" && campField r (·.status) == "ENABLED")
  if !hasActiveSearch || keywords.length == 0 then
    { name := "Keywords & Quality Score", weight := "15%", checks := [
      { id := "G20-G25", name := "Quality Score checks", severity := "High", result := "N/A",
        finding := if keywords.length > 0 then
            toString keywords.length ++ " keywords exist but search campaigns are paused — Quality Score is not actively tracked. QS directly impacts CPC: a QS of 10 gets a 50% CPC discount, while QS of 1 pays 400% more. When campaigns are reactivated, monitor QS closely."
          else
            "No active search campaigns — Quality Score is not tracked. QS only applies to Search campaigns and measures expected CTR, ad relevance, and landing page experience." },
      { id := "G-KW1", name := "Zero-impression keywords", severity := "Medium", result := "N/A",
        finding := "No active search campaigns to assess keyword performance." },
      { id := "G-KW2", name := "Keyword-to-ad relevance", severity := "High", result := "N/A",
        finding := "Cannot assess without active search campaigns." }] }
  else
    let qsScores := (keywords.map (fun r =>
      ((r.adGroupCriterion.bind (·.qualityInfo)).bind (·.qualityScore)).getD 0)).filter (fun q => q > 0)
    let avgQS : ℚ := if qsScores.length > 0 then qsScores.sum / qsScores.length else 0
    let lowQS := (qsScores.filter (fun q => q < 5)).length
    let highQS := (qsScores.filter (fun q => q ≥ 7)).length
    let matchTypes := keywords.foldl (fun m r =>
      bumpCount m (jsStr ((r.adGroupCriterion.bind (·.keyword)).bind (·.matchType)) "UNKNOWN")) []
    { name := "Keywords & Quality Score", weight := "15%", checks := [
      { id := "G20-G25", name := "Quality Score checks", severity := "High",
        result := if avgQS ≥ 7 then "PASS" else (if avgQS ≥ 5 then "WARNING" else "FAIL"),
        finding := if qsScores.length > 0 then
            "Average QS: " ++ toFixed1 avgQS ++ "/10 across " ++ toString qsScores.length ++ " scored keywords (" ++ toString highQS ++ " scoring 7+, " ++ toString lowQS ++ " below 5). " ++
            (if avgQS < 5 then
              "Low QS means you pay significantly more per click — improve ad relevance by tightening keyword-to-ad alignment, improving landing page experience, and using more specific match types."
             else if avgQS < 7 then
              "Room for improvement — focus on keywords below 5 to reduce CPC. Each QS point improvement typically reduces CPC by 16%."
             else
              "Strong QS — your keywords, ads, and landing pages are well-aligned, resulting in lower CPCs and better ad positions.")
          else
            "No Quality Score data available. QS requires sufficient impression history — new keywords need time to accumulate data." },
      { id := "G-KW1", name := "Zero-impression keywords", severity := "Medium", result := "WARNING",
        finding := toString keywords.length ++ " keywords configured: " ++
          String.intercalate ", " (matchTypes.map (fun p => toString p.2 ++ " " ++ p.1)) ++
          ". Review keywords with zero impressions in the last 30 days — they may be too restrictive, have low search volume, or be outranked by other keywords in the same ad group. Pause or restructure these to reduce clutter." },
      { id := "G-KW2", name := "Keyword-to-ad relevance", severity := "High",
        result := if avgQS ≥ 6 then "PASS" else "WARNING",
        finding := if avgQS > 0 then
            "Average QS of " ++ toFixed1 avgQS ++ " indicates " ++ (if avgQS ≥ 6 then "good" else "poor") ++ " keyword-to-ad relevance. " ++
            (if avgQS < 6 then
              "Low relevance means your ads don't closely match user intent — restructure ad groups around single themes, include keywords in headlines, and ensure landing pages address the specific search intent."
             else
              "Keywords and ads are well-matched — this contributes to higher CTR, lower CPC, and better ad positions.")
          else "Cannot assess relevance without QS data." }] }

-- ===== Audit checks: Ads & Assets =====

/-- The five PMax detail checks appended by checkAdsAssets, in the
insertion order of the source object. -/
def pmaxDetails (hasPMaxEnabled : Bool) : List (String × String × String) := [
  ("G-PM1", "PMax audience signals",
    if hasPMaxEnabled then "PMax active — audience signals guide Google's AI but don't restrict targeting. Add: (1) Customer Match lists from CRM, (2) Website visitors from GA4, (3) In-market segments relevant to your business. Without signals, PMax spends heavily on broad, untargeted traffic." else "No active PMax."),
  ("G-PM2", "PMax Ad Strength",
    if hasPMaxEnabled then "Check asset group Ad Strength in the PMax campaign. Aim for \"Excellent\" — add diverse text, image, and video assets. Each additional unique asset gives PMax more combinations to test, improving performance across Google's entire ad network." else "No active PMax."),
  ("G-PM3", "PMax brand cannibalization",
    if hasPMaxEnabled then "PMax often captures branded search queries, inflating its reported ROAS while cannibalizing your brand Search campaign. Add brand terms as account-level negative keywords for PMax, and compare PMax performance with vs without brand traffic." else "No active PMax."),
  ("G-PM4", "PMax search themes",
    if hasPMaxEnabled then "Add search themes to guide PMax toward relevant queries. Without themes, PMax may target overly broad or irrelevant searches. Review Insights > Search categories to see what queries PMax is matching and add themes for your highest-value categories." else "No active PMax."),
  ("G-PM5", "PMax negative keywords",
    if hasPMaxEnabled then "Request account-level negative keywords for PMax through your Google rep or the PMax Negative Keywords feature. Without negatives, PMax can waste spend on irrelevant queries that standard Search campaigns would normally filter out." else "No active PMax.")]

/-- checkAdsAssets of the source. -/
def checkAdsAssets (data : AccountDataset) : Category :=
  let ads := safeArray data.ads
  let campaigns := safeArray data.campaigns
  let hasActiveSearch := campaigns.any (fun r =>
    campField r (·.advertisingChannelType) == "SEARCH" && campField r (·.status) == "ENABLED")
  let hasPMaxEnabled := campaigns.any (fun r =>
    campField r (·.advertisingChannelType) == "PERFORMANCE_MAX" && campField r (·.status) == "ENABLED")
  let hasPMaxAny := campaigns.any (fun r => campField r (·.advertisingChannelType) == "PERFORMANCE_MAX")
  let rsaAds := ads.filter (fun r =>
    jsStr ((r.adGroupAd.bind (·.ad)).bind (·.type)) "" == "RESPONSIVE_SEARCH_AD")
  let acctMetrics := safeArray data.account_metrics
  let totalClicks : ℚ := (acctMetrics.map (fun r => (r.metrics.bind (·.clicks)).getD 0)).sum
  let totalImpressions : ℚ := (acctMetrics.map (fun r => (r.metrics.bind (·.impressions)).getD 0)).sum
  let ctr : ℚ := if totalImpressions > 0 then totalClicks / totalImpressions * 100 else 0
  let totalAds := ads.length
  let rsaBlock : List Check :=
    if hasActiveSearch then
      let rsaWithStrength := rsaAds.filter (fun r =>
        jsStr (r.adGroupAd.bind (·.adStrength)) "" == "GOOD" ||
        jsStr (r.adGroupAd.bind (·.adStrength)) "" == "EXCELLENT")
      [{ id := "G26-G30", name := "RSA checks", severity := "High",
         result := if rsaAds.length > 0 then
             (if (rsaWithStrength.length : ℚ) / rsaAds.length ≥ 1/2 then "PASS" else "WARNING")
           else "FAIL",
         finding := toString rsaAds.length ++ " Responsive Search Ads found, " ++ toString rsaWithStrength.length ++ " with Good/Excellent Ad Strength. " ++
           (if rsaAds.length = 0 then
             "Every active ad group needs at least 1 RSA with 15 headlines and 4 descriptions. RSAs allow Google to test 32,760+ combinations to find the best-performing message for each search."
            else if (rsaWithStrength.length : ℚ) / rsaAds.length < 1/2 then
             "Over half of RSAs have Poor/Average Ad Strength. Add more unique headlines (use different angles: features, benefits, urgency, social proof) and ensure each headline brings a different message. Pin sparingly — excessive pinning reduces Google's ability to optimize."
            else
             "Good Ad Strength across RSAs — Google has enough headline/description variations to optimize effectively.") }]
    else
      [{ id := "G26-G30", name := "RSA checks", severity := "High", result := "N/A",
         finding := "No active Search campaigns — RSA checks not applicable. RSAs are the only accepted Search ad format since June 2022." }]
  let checks : List Check := rsaBlock ++
    [{ id := "G31-G34", name := "PMax asset checks", severity := "Critical",
       result := if hasPMaxEnabled then "WARNING" else "N/A",
       finding := if hasPMaxEnabled then
           "PMax active — verify each asset group has: 20 images (various aspect ratios), 5 videos (landscape + vertical + square), 5 headlines, 5 long headlines, 5 descriptions, business name, and logo. Incomplete asset groups limit PMax's ability to serve across all Google surfaces and typically reduce performance by 20-40%."
         else (if hasPMaxAny then
           "PMax campaigns exist but all paused. Before relaunching, ensure asset groups are complete — PMax needs diverse, high-quality assets to perform well across Search, Display, YouTube, Gmail, Maps, and Discover."
         else "No PMax campaigns configured.") },
     { id := "G35", name := "Ad copy relevance to keywords", severity := "High",
       result := if hasActiveSearch && rsaAds.length > 0 then "WARNING" else "N/A",
       finding := if hasActiveSearch then
           "Verify ad headlines include primary keywords. Keyword insertion in headlines improves CTR by 10-15% on average because ads appear more relevant to the searcher's query. Use dynamic keyword insertion (DKI) or manually include top keywords in at least 3 headlines."
         else "No search ads to assess." },
     { id := "G-AD1", name := "Ad freshness", severity := "Medium",
       result := if totalAds > 3 then "WARNING" else "FAIL",
       finding := if totalAds > 0 then
           toString totalAds ++ " total ads across all campaigns. Creative fatigue reduces CTR by 20-40% over time. Test new ad variations every 4-6 weeks — try different value propositions, CTAs, and emotional angles. Always keep a control ad running alongside tests."
         else
           "No ads found — campaigns cannot run without ad creative. Create Responsive Search Ads with 15 unique headlines and 4 descriptions per ad group." },
     { id := "G-AD2", name := "CTR vs industry benchmark", severity := "High",
       result := if ctr > 0 then (if ctr ≥ 2 then "PASS" else "WARNING") else "N/A",
       finding := if ctr > 0 then
           "Account CTR is " ++ toFixed2 ctr ++ "%. " ++
           (if ctr ≥ 6 then
             "Excellent — well above the industry average of 6.66% for Search. Strong ad relevance and targeting."
            else if ctr ≥ 2 then
             "Acceptable but room for improvement. The all-industry Search average is 6.66% CTR. Improve by: (1) adding more relevant headlines, (2) including keywords in ad copy, (3) using ad extensions to increase ad real estate, (4) tightening keyword targeting."
            else
             "Below the 2% minimum threshold. Low CTR increases CPC and reduces Quality Score. Review ad copy for relevance, check keyword match types, and ensure ads align with search intent.")
         else "No impression data available to calculate CTR." }] ++
    (pmaxDetails hasPMaxEnabled).map (fun d =>
      { id := d.1, name := d.2.1, severity := "High",
        result := if hasPMaxEnabled then "WARNING" else "N/A", finding := d.2.2 })
  { name := "Ads & Assets", weight := "15%", checks := checks }

-- ===== Audit checks: Settings & Targeting + Bidding =====

structure ExtDetail where
  id : String
  name : String
  type : String
  severity : String
  min : ℕ
  why : String
deriving DecidableEq

/-- extDetails of checkSettingsTargeting, in source order. -/
def extDetails : List ExtDetail := [
  { id := "G50", name := "Sitelink extensions", type := "SITELINK", severity := "High", min := 4,
    why := "Sitelinks increase CTR by 10-20% by providing additional links to key pages (pricing, reviews, specific products). They also increase ad real estate, pushing competitors further down the page." },
  { id := "G51", name := "Callout extensions", type := "CALLOUT", severity := "Medium", min := 4,
    why := "Callouts highlight key benefits (Free Shipping, 24/7 Support, Price Match) and increase CTR by 5-10%. They require no additional landing pages." },
  { id := "G52", name := "Structured snippets", type := "STRUCTURED_SNIPPET", severity := "Medium", min := 1,
    why := "Structured snippets showcase product categories, services, or features under standardized headers. They pre-qualify clicks by setting expectations before the user clicks." },
  { id := "G53", name := "Image extensions", type := "IMAGE", severity := "Medium", min := 1,
    why := "Image extensions make ads 2-3x more visually prominent on mobile, increasing CTR significantly. Critical for product-based businesses where visual appeal drives clicks." },
  { id := "G54", name := "Call extensions", type := "CALL", severity := "Medium", min := 1,
    why := "Call extensions add a clickable phone number to ads, essential for businesses where phone calls are a primary conversion action. Phone leads typically convert 30-50% higher than form fills." }]

/-- Lowercasing used inside the extension findings
(ext.type.toLowerCase()). -/
def extTypeLower (t : String) : String := lowerStr t

/-- Count of assets of a given type (assetTypes[type] || 0). -/
def assetTypeCount (assets : List AssetRow) (t : String) : ℕ :=
  (assets.filter (fun r => jsStr (r.asset.bind (·.type)) "" == t)).length

/-- checkSettingsTargeting of the source. -/
def checkSettingsTargeting (data : AccountDataset) : Category :=
  let campaigns := safeArray data.campaigns
  let assets := safeArray data.assets
  let userLists := safeArray data.user_lists
  let acctMetrics := safeArray data.account_metrics
  let enabledCampaigns := campaigns.filter (fun r => campField r (·.status) == "ENABLED")
  let biddingTypes := enabledCampaigns.map (fun r => campField r (·.biddingStrategyType))
  let hasManualCpc := biddingTypes.any (fun b => b == "MANUAL_CPC" || b == "MANUAL_CPM")
  let hasSmartBidding := biddingTypes.any (fun b =>
    ["TARGET_CPA", "TARGET_ROAS", "MAXIMIZE_CONVERSIONS", "MAXIMIZE_CONVERSION_VALUE"].contains b)
  let totalConv := totalConvOf acctMetrics
  let sisValue := sisValueOf acctMetrics
  let remarketingLists := userLists.filter (fun r =>
    ["REMARKETING", "RULE_BASED", "SIMILAR"].contains (jsStr (r.userList.bind (·.type)) ""))
  let customerMatch := userLists.filter (fun r => jsStr (r.userList.bind (·.type)) "" == "CRM_BASED")
  let checks : List Check := [
    { id := "G36", name := "Smart bidding strategy active", severity := "High",
      result := if hasSmartBidding then "PASS"
        else (if hasManualCpc ∧ totalConv < 15 then "WARNING" else "FAIL"),
      finding := if hasSmartBidding then
          "Smart bidding active (" ++
          String.intercalate ", " (biddingTypes.filter (fun b => b ≠ "" ∧ b ≠ "MANUAL_CPC")) ++
          "). Google's AI adjusts bids in real-time based on 70+ signals including device, location, time, audience, and query intent — something impossible to replicate manually."
        else (if hasManualCpc then
          "Using Manual CPC with " ++ toString (jsRound totalConv) ++ " conversions/month. " ++
          (if totalConv < 15 then
            "Smart Bidding needs 15+ conversions/month to optimize effectively — Manual CPC is partially justified but limits performance. Consider Maximize Clicks as a stepping stone to build conversion volume, then switch to Target ROAS or Target CPA."
           else
            "With " ++ toString (jsRound totalConv) ++ " conversions/month, you have enough data for Smart Bidding. Switch to Target ROAS (for revenue optimization) or Target CPA (for volume optimization). Smart Bidding typically improves ROAS by 20-30% compared to Manual CPC.")
        else "No bidding strategy detected on active campaigns.") },
    { id := "G39", name := "Budget constrained campaigns", severity := "High",
      result := if jsTruthyZ sisValue then
          (if sisValue.getD 0 ≥ 70 then "PASS" else (if sisValue.getD 0 ≥ 40 then "WARNING" else "FAIL"))
        else "N/A",
      finding := if jsTruthyZ sisValue then
          "Search Impression Share is " ++ toString (sisValue.getD 0) ++ "%. " ++
          (if sisValue.getD 0 < 50 then
            "You're only showing for " ++ toString (sisValue.getD 0) ++ "% of eligible searches — missing " ++ toString (100 - sisValue.getD 0) ++ "% of potential customers. This is the single biggest growth opportunity: increasing budget or improving Quality Score would put your ads in front of significantly more qualified searchers."
           else if sisValue.getD 0 < 70 then
            "Moderate coverage — there's room to capture more impressions by increasing budget on top-performing campaigns or improving Quality Score."
           else
            "Strong impression share — your ads appear for most eligible searches.")
        else
          "Search Impression Share data not available. This metric shows what percentage of eligible searches your ads appear for and is critical for understanding growth potential." },
    { id := "G40", name := "Manual CPC justification", severity := "Medium",
      result := if hasManualCpc then (if totalConv < 15 then "WARNING" else "FAIL") else "PASS",
      finding := if hasManualCpc then
          toString (jsRound totalConv) ++ " conversions/month with Manual CPC. " ++
          (if totalConv < 15 then
            "Below the 15-conversion threshold for reliable Smart Bidding — focus on building conversion volume first. Use Maximize Clicks to increase traffic, improve conversion tracking accuracy, then transition to Smart Bidding once you reach 15+ conversions/month."
           else
            "Sufficient conversion volume for Smart Bidding. Manual CPC leaves significant optimization on the table — Google processes billions of auction signals that humans cannot replicate. Test Target ROAS or Target CPA in an experiment before committing.")
        else
          "Using automated bidding — this leverages Google's real-time auction signals for optimal bid management." }] ++
    extDetails.map (fun ext =>
      let count := assetTypeCount assets ext.type
      { id := ext.id, name := ext.name, severity := ext.severity,
        result := if count ≥ ext.min then "PASS" else (if count > 0 then "WARNING" else "FAIL"),
        finding := if count ≥ ext.min then
            toString count ++ " " ++ extTypeLower ext.type ++ " asset(s) configured. " ++ ext.why
          else (if count > 0 then
            "Only " ++ toString count ++ " " ++ extTypeLower ext.type ++ " asset(s) — need at least " ++ toString ext.min ++ ". " ++ ext.why
          else "No " ++ lowerStr ext.name ++ " configured. " ++ ext.why) }) ++
    [{ id := "G56", name := "Audience segments applied", severity := "High",
       result := if remarketingLists.length > 0 then "PASS" else "FAIL",
       finding := if remarketingLists.length > 0 then
           toString remarketingLists.length ++ " remarketing/audience list(s) configured. Remarketing audiences convert 3-5x higher than cold traffic because they've already shown interest in your business. Ensure these lists are applied to campaigns as observation layers (for bid adjustments) or targeting layers (for RLSA campaigns)."
         else
           "No remarketing or in-market audiences applied. You're missing the highest-converting audience segment — past website visitors convert 3-5x higher than new users. Create audiences in GA4 or Google Ads: (1) All visitors (last 30d), (2) Cart abandoners, (3) Past converters, (4) High-value pages visitors." },
     { id := "G57", name := "Customer Match lists", severity := "High",
       result := if customerMatch.length > 0 then "PASS" else "FAIL",
       finding := if customerMatch.length > 0 then
           toString customerMatch.length ++ " Customer Match list(s) uploaded. These first-party data lists enable: (1) Exclusion of existing customers from acquisition campaigns, (2) Cross-sell/upsell targeting to past purchasers, (3) Similar audience expansion to find new high-value prospects."
         else
           "No Customer Match lists uploaded. Upload your CRM customer email/phone list to: (1) Exclude existing customers from acquisition campaigns (saving 10-15% of budget), (2) Create lookalike audiences for prospecting, (3) Target past buyers with cross-sell offers. Upload via Tools > Shared Library > Audience Manager." }]
  { name := "Settings & Targeting + Bidding", weight := "10%", checks := checks }

-- ===== Snapshot builder =====

structure Snapshot where
  totalCampaigns : ℕ
  enabledCampaigns : ℕ
  activeCampaignsWithSpend : ℕ
  totalAdGroups : ℕ
  totalKeywords : ℕ
  spend30d : ℚ
  impressions30d : ℚ
  clicks30d : ℚ
  ctr : ℚ
  avgCpc : ℚ
  conversions30d : ℚ
  conversionValue30d : ℚ
  roas : ℚ
  cpa : ℚ
  searchImpressionShare : Option ℚ
  dailyBudget : ℚ
  avgDailySpend : ℚ
deriving DecidableEq

/-- 30-day spend sum of buildSnapshot: microsToDollars of the cost
field in either spelling, rowwise. -/
def totalSpendOf (acctMetrics : List MetricsRow) : ℚ :=
  (acctMetrics.map (fun r =>
    microsToDollars (jsOrQ (r.metrics.bind (·.costMicros)) (r.metrics.bind (·.cost_micros))))).sum

def totalImpressionsOf (acctMetrics : List MetricsRow) : ℚ :=
  (acctMetrics.map (fun r => (r.metrics.bind (·.impressions)).getD 0)).sum

def totalClicksOf (acctMetrics : List MetricsRow) : ℚ :=
  (acctMetrics.map (fun r => (r.metrics.bind (·.clicks)).getD 0)).sum

def totalConvValueOf (acctMetrics : List MetricsRow) : ℚ :=
  (acctMetrics.map (fun r =>
    (jsOrQ (r.metrics.bind (·.conversionsValue)) (r.metrics.bind (·.conversions_value))).getD 0)).sum

/-- Raw impression share of the first account-metric row, in either
spelling (acctMetrics[0]?.metrics?.searchImpressionShare ||
acctMetrics[0]?.metrics?.search_impression_share). -/
def sisSnapRawOf (acctMetrics : List MetricsRow) : Option ℚ :=
  match acctMetrics.head? with
  | some r => jsOrQ (r.metrics.bind (·.searchImpressionShare)) (r.metrics.bind (·.search_impression_share))
  | none => none

/-- Snapshot impression share: sis ? Math.round(Number(sis) * 10000) / 100
: null. A present zero share is falsy in JS and yields null. -/
def sisSnapValueOf (acctMetrics : List MetricsRow) : Option ℚ :=
  match sisSnapRawOf acctMetrics with
  | some v => if v = 0 then none else some ((jsRound (v * 10000) : ℚ) / 100)
  | none => none

/-- buildSnapshot of the source. -/
def buildSnapshot (data : AccountDataset) : Snapshot :=
  let campaigns := safeArray data.campaigns
  let campaignMetrics := safeArray data.campaign_metrics
  let campaignBudgets := safeArray data.campaign_budgets
  let acctMetrics := safeArray data.account_metrics
  let adGroups := safeArray data.ad_groups
  let keywords := safeArray data.keywords
  let enabledCampaigns := campaigns.filter (fun r => campField r (·.status) == "ENABLED")
  let activeCampaignsWithSpend := (campaignMetrics.filter (fun r =>
    decide (microsToDollars (jsOrQ (r.metrics.bind (·.costMicros)) (r.metrics.bind (·.cost_micros))) > 0))).length
  let totalSpend := totalSpendOf acctMetrics
  let totalImpressions := totalImpressionsOf acctMetrics
  let totalClicks := totalClicksOf acctMetrics
  let totalConv := totalConvOf acctMetrics
  let totalConvValue := totalConvValueOf acctMetrics
  let ctr : ℚ := if totalImpressions > 0 then (jsRound (totalClicks / totalImpressions * 10000) : ℚ) / 100 else 0
  let avgCpc : ℚ := if totalClicks > 0 then (jsRound (totalSpend / totalClicks * 100) : ℚ) / 100 else 0
  let roas : ℚ := if totalSpend > 0 then (jsRound (totalConvValue / totalSpend * 100) : ℚ) / 100 else 0
  let cpa : ℚ := if totalConv > 0 then (jsRound (totalSpend / totalConv * 100) : ℚ) / 100 else 0
  let totalBudget : ℚ := (campaignBudgets.map (fun r =>
    microsToDollars (jsOrQ (r.campaignBudget.bind (·.amountMicros)) (r.campaign_budget.bind (·.amount_micros))))).sum
  { totalCampaigns := campaigns.length,
    enabledCampaigns := enabledCampaigns.length,
    activeCampaignsWithSpend := activeCampaignsWithSpend,
    totalAdGroups := adGroups.length,
    totalKeywords := keywords.length,
    spend30d := (jsRound (totalSpend * 100) : ℚ) / 100,
    impressions30d := totalImpressions,
    clicks30d := totalClicks,
    ctr := ctr,
    avgCpc := avgCpc,
    conversions30d := (jsRound (totalConv * 10) : ℚ) / 10,
    conversionValue30d := (jsRound totalConvValue : ℚ),
    roas := roas,
    cpa := cpa,
    searchImpressionShare := sisSnapValueOf acctMetrics,
    dailyBudget := (jsRound totalBudget : ℚ),
    avgDailySpend := (jsRound (totalSpend / 30 * 100) : ℚ) / 100 }

-- ===== Product analysis =====

structure WastedProduct where
  product : String
  spend : ℚ
  conversions : ℚ
  value : ℚ
deriving DecidableEq

structure PerformingProduct where
  product : String
  spend : ℚ
  conversions : ℚ
  value : ℚ
  roas : ℚ
deriving DecidableEq

/-- Per-row dollar spend of a shopping row: microsToDollars of the
cost field in either spelling. -/
def shoppingSpend (r : ShoppingRow) : ℚ :=
  microsToDollars (jsOrQ (r.metrics.bind (·.costMicros)) (r.metrics.bind (·.cost_micros)))

/-- Per-row value of a shopping row, converted from micro units as
the source does (microsToDollars over conversionsValue). -/
def shoppingValue (r : ShoppingRow) : ℚ :=
  microsToDollars (jsOrQ (r.metrics.bind (·.conversionsValue)) (r.metrics.bind (·.conversions_value)))

def shoppingConversions (r : ShoppingRow) : ℚ := (r.metrics.bind (·.conversions)).getD 0

/-- The top-wasted filter: zero conversions and spend above $10. -/
def wastedFilter (r : ShoppingRow) : Bool :=
  (shoppingConversions r == 0) && decide (shoppingSpend r > 10)

/-- Comparator of the top-wasted sort: descending by spend. -/
def spendDesc (a b : ShoppingRow) : Prop := shoppingSpend b ≤ shoppingSpend a

instance : DecidableRel spendDesc := fun a b =>
  inferInstanceAs (Decidable (shoppingSpend b ≤ shoppingSpend a))

/-- Sort key of the top-performing sort: conversionsValue over
max(spend, $0.01). -/
def perfRoasKey (r : ShoppingRow) : ℚ := shoppingValue r / max (shoppingSpend r) (1/100)

/-- Comparator of the top-performing sort: descending by perfRoasKey. -/
def roasDesc (a b : ShoppingRow) : Prop := perfRoasKey b ≤ perfRoasKey a

instance : DecidableRel roasDesc := fun a b =>
  inferInstanceAs (Decidable (perfRoasKey b ≤ perfRoasKey a))

/-- The entry built for one top-wasted row: name fallback chain,
spend rounded to cents, conversions and value as the constants 0. -/
def mkWasted (r : ShoppingRow) : WastedProduct :=
  { product := jsStr (r.segments.bind (·.productTitle))
      (jsStr (r.segments.bind (·.product_title))
        (jsStr (r.segments.bind (·.productItemId)) "Unknown")),
    spend := (jsRound (shoppingSpend r * 100) : ℚ) / 100,
    conversions := 0, value := 0 }

/-- The entry built for one top-performing row. -/
def mkPerforming (r : ShoppingRow) : PerformingProduct :=
  let spend := shoppingSpend r
  let value := shoppingValue r
  { product := jsStr (r.segments.bind (·.productTitle))
      (jsStr (r.segments.bind (·.product_title)) "Unknown"),
    spend := (jsRound (spend * 100) : ℚ) / 100,
    conversions := (r.metrics.bind (·.conversions)).getD 0,
    value := (jsRound value : ℚ),
    roas := if spend > 0 then (jsRound (value / spend * 10) : ℚ) / 10 else 0 }

/-- analyzeProducts of the source: with no shopping rows both lists
are empty; otherwise top wasted is the zero-conversion rows with
spend above $10 sorted descending by spend, first 8, and top
performing is the converting rows sorted descending by the
division-guarded ROAS key, first 5. -/
def analyzeProducts (data : AccountDataset) : List WastedProduct × List PerformingProduct :=
  let products := safeArray data.shopping_performance
  if products.length = 0 then ([], [])
  else
    let topWasted := ((List.insertionSort spendDesc (products.filter wastedFilter)).take 8).map mkWasted
    let topPerforming := ((List.insertionSort roasDesc
      (products.filter (fun r => decide (shoppingConversions r > 0)))).take 5).map mkPerforming
    (topWasted, topPerforming)

-- ===== Quick wins =====

structure QuickWin where
  action : String
  impact : String
  time : String
  check : String
deriving DecidableEq

/-- getQuickWinAction of the source: fixed rule-id to action-text
table, falling back to the finding text of the check. -/
def getQuickWinAction (check : Check) : String :=
  if check.id = "G42" then "Set up conversion tracking immediately: Go to Goals > Conversions > New conversion action. Track purchases (e-commerce), form submissions (lead gen), and phone calls. Without this, every dollar spent is unguided."
  else if check.id = "G43" then "Enable Enhanced Conversions: Go to Goals > Conversions > Settings > Enhanced conversions. This recovers 5-15% of conversions lost to cookie restrictions by using hashed first-party data (email/phone) for attribution."
  else if check.id = "G44" then "Implement server-side tracking via server-side GTM or Google Ads API offline conversion import to close the 10-25% data gap caused by ad blockers and browser restrictions."
  else if check.id = "G47" then "Fix conversion action priority: Go to Goals > Conversions. Set only Purchase + Phone Call as Primary (included in bidding). Set everything else (page views, add to cart, engagements) to Secondary. This prevents Smart Bidding from optimizing for micro-actions."
  else if check.id = "G-CT1" then "Remove duplicate conversion actions: Go to Goals > Conversions and identify actions tracking the same event (e.g., GA4 Purchase + Shopify Purchase). Keep one source per conversion type and set duplicates to Secondary."
  else if check.id = "G05" then "Create a brand Search campaign: Add exact and phrase match keywords for your brand name. Set budget to capture 95%+ impression share. Brand campaigns typically achieve 30-50x ROAS with $0.50-$1.50 CPCs."
  else if check.id = "G36" then "Switch to Smart Bidding: Create a campaign experiment (Settings > Experiments) testing Target ROAS or Max Conversions against your current Manual CPC. Run for 2 weeks to compare performance before full commitment."
  else if check.id = "G04" then "Consolidate fragmented campaigns to give Smart Bidding more conversion data per campaign. Merge campaigns with similar objectives and targeting into 5-10 focused campaigns."
  else if check.id = "G14" then "Build 3+ themed negative keyword lists: (1) Competitor names, (2) Job/career terms, (3) \"Free/DIY/cheap\" terms. Apply to all campaigns via Tools > Shared Library > Negative Keyword Lists. This typically saves 15-20% of wasted spend."
  else if check.id = "G11" then "Fix geo targeting: In each campaign, go to Settings > Locations > Location options. Change from \"Presence or Interest\" to \"Presence: People in or regularly in your targeted locations.\" This stops ads from showing to out-of-area users."
  else if check.id = "G12" then "Turn off Display Network on Search campaigns: Go to Settings > Networks and uncheck \"Include Google Display Network.\" Search campaigns on Display get <0.5% CTR with poor conversion rates."
  else if check.id = "G56" then "Add remarketing audiences: Create audiences in GA4 (all visitors 30d, cart abandoners, past purchasers) and apply to campaigns as observation layers. Remarketing audiences convert 3-5x higher than cold traffic."
  else if check.id = "G57" then "Upload Customer Match list: Export customer emails/phones from your CRM and upload via Tools > Audience Manager > Customer Match. This enables lookalike targeting and existing customer exclusion."
  else if check.id = "G50" then "Add 4+ sitelink extensions: Link to your top pages (pricing, reviews, categories, contact). Sitelinks increase CTR by 10-20% and push competitors down the page."
  else if check.id = "G53" then "Add image extensions to make ads 2-3x more visually prominent, especially on mobile. Upload high-quality product or service images in 1:1 and 1.91:1 aspect ratios."
  else if check.id = "G16" then "Pause or add negative product groups for zero-converting products with >$100 spend. Redirect that budget to proven high-ROAS products instead."
  else if check.id = "G-AD1" then "Create new ad variations to combat creative fatigue. Test different value propositions, CTAs, and emotional angles. Keep a control ad running alongside each test."
  else if check.id = "G06" then "Launch a PMax campaign with proper asset groups: add 20 images, 5 videos, 5 headlines, 5 descriptions, and audience signals (customer lists, website visitors, in-market segments)."
  else if check.id = "G08" then "Reallocate budget: Increase budget on campaigns with ROAS above target and decrease on underperformers. Focus spend where it generates the most profitable returns."
  else check.finding

/-- getEstimatedTime of the source: fixed rule-id to duration table
with a 15-minute default. -/
def getEstimatedTime (checkId : String) : String :=
  if checkId = "G42" then "30 min" else if checkId = "G43" then "5 min"
  else if checkId = "G44" then "2 hrs" else if checkId = "G47" then "15 min"
  else if checkId = "G-CT1" then "10 min" else if checkId = "G05" then "30 min"
  else if checkId = "G36" then "10 min" else if checkId = "G04" then "1 hr"
  else if checkId = "G14" then "15 min" else if checkId = "G11" then "2 min"
  else if checkId = "G12" then "2 min" else if checkId = "G56" then "15 min"
  else if checkId = "G57" then "10 min" else if checkId = "G50" then "15 min"
  else if checkId = "G53" then "10 min" else if checkId = "G16" then "10 min"
  else if checkId = "G-AD1" then "30 min" else if checkId = "G06" then "1 hr"
  else if checkId = "G08" then "15 min"
  else "15 min"

/-- The quick-win collection predicate: failing Critical or High
severity checks. -/
def quickWinFilter (c : Check) : Bool :=
  (c.result == "FAIL") && (c.severity == "Critical" || c.severity == "High")

def mkQuickWin (c : Check) : QuickWin :=
  { action := getQuickWinAction c, impact := c.severity,
    time := getEstimatedTime c.id, check := c.id }

/-- identifyQuickWins of the source: categories in order, checks in
order, collect the failing Critical/High checks, first 7. -/
def identifyQuickWins (categories : List Category) : List QuickWin :=
  ((categories.flatMap (fun cat => cat.checks.filter quickWinFilter)).map mkQuickWin).take 7

-- ===== Recommendations =====

/-- Failing-or-warning checks collected by generateRecommendations
(note: WARNING results are included). -/
def failedChecksOf (categories : List Category) : List Check :=
  categories.flatMap (fun cat => cat.checks.filter (fun c =>
    c.result == "FAIL" || c.result == "WARNING"))

/-- String.prototype.startsWith, modelled on the char list. -/
def strStartsWith (s p : String) : Bool := startsChars s.data p.data

def p1ConvTracking : String := "Clean up conversion tracking — audit all conversion actions, set only true business outcomes (Purchase, Lead Form, Phone Call) as Primary, and set all micro-actions (page views, add-to-cart, engagements) to Secondary. This is the single most impactful change because it fixes the data that drives all optimization decisions."

def p1Enhanced : String := "Enable Enhanced Conversions for the primary conversion action. Navigate to Goals > Conversions > Settings and turn on Enhanced Conversions. This uses hashed first-party data to recover 5-15% of conversions lost to cookie restrictions — directly improving Smart Bidding accuracy."

def p1Brand : String := "Launch a brand Search campaign immediately to protect your branded search terms. Competitors can bid on your brand name at low cost. Create exact + phrase match keywords for your brand name, set a sufficient budget to capture 95%+ impression share. Brand campaigns typically deliver 30-50x ROAS."

def p1NegLists : String := "Build 3+ themed negative keyword lists and apply to all campaigns: (1) Competitor brand names, (2) Job/career/hiring terms, (3) \"Free/cheap/DIY\" qualifiers. This typically eliminates 15-20% of wasted spend immediately."

def p1Geo : String := "Fix geographic targeting in all campaigns — switch from \"Presence or Interest\" to \"Presence only\" in Settings > Locations > Location options. This stops your ads from showing to users merely interested in your location but who are physically elsewhere and unlikely to convert."

def p1Fallback : String := "No critical failures found — review and address remaining Warning-level items to move toward an A-grade account."

def p2SmartBidding : String := "Test Smart Bidding via campaign experiments: Create an experiment in Settings > Experiments, testing Target ROAS (set 20% below your current ROAS as starting target) or Maximize Conversions against Manual CPC. Run for 2-3 weeks to compare. Smart Bidding typically improves ROAS by 20-30%."

def p2Audience : String := "Build your audience infrastructure: (1) Create remarketing audiences in GA4 — all visitors (30d), cart abandoners, past converters, high-value page visitors. (2) Upload Customer Match lists from your CRM for lookalike expansion and existing customer exclusion. Remarketing audiences convert 3-5x higher than cold traffic."

def p2PMax : String := "Launch a PMax campaign with proper setup: Create asset groups by product category or service type, each with 20 images (various aspect ratios), 5 videos, 5 headlines, 5 descriptions, and audience signals (customer lists + website visitors + in-market segments). Start with a daily budget of 3x your target CPA."

def p2Creative : String := "Refresh ad creative: Test new headline angles (features vs benefits vs urgency vs social proof), update ad descriptions with current offers, and add all available extensions (sitelinks, callouts, structured snippets, images). Creative testing every 4-6 weeks prevents fatigue-driven CTR decline."

def p3ImpShareLow (v : ℚ) : String := "Increase Search Impression Share from " ++ qToString v ++ "% toward 50%+ on converting campaigns. This is done by increasing budget, improving Quality Score, and consolidating campaigns to focus spend where it performs best."

def p3Generic : String := "Increase impression share on your highest-ROAS campaigns by raising budgets incrementally (10-15% per week) and monitoring for CPA/ROAS stability."

def p3Volume (c : ℚ) : String := "With " ++ toString (jsRound c) ++ " conversions/month, you have enough data to scale. Increase budget by 10-15% weekly on campaigns meeting your ROAS/CPA targets. Monitor for 1 week between each increase to ensure stability."

def p3DemandGen : String := "Test Demand Gen campaigns for upper-funnel awareness — these reach users across YouTube, Gmail, and Discover with visually engaging ads, driving new-to-brand traffic at lower CPMs than Search."

def p3ServerSide : String := "Implement server-side tracking via server-side GTM or direct API conversion imports to improve data quality by 10-25%. This ensures Smart Bidding has the most accurate conversion signals possible."

/-- Phase 1 of generateRecommendations: Critical FAIL triggers, with
the fixed fallback message when none fires. -/
def phase1Items (categories : List Category) : List String :=
  let criticalFails := (failedChecksOf categories).filter (fun c =>
    c.severity == "Critical" && c.result == "FAIL")
  let items :=
    (if criticalFails.any (fun c => strStartsWith c.id "G4" || strStartsWith c.id "G-CT") then [p1ConvTracking] else []) ++
    (if criticalFails.any (fun c => c.id == "G43") then [p1Enhanced] else []) ++
    (if criticalFails.any (fun c => c.id == "G05") then [p1Brand] else []) ++
    (if criticalFails.any (fun c => c.id == "G14") then [p1NegLists] else []) ++
    (if criticalFails.any (fun c => c.id == "G11") then [p1Geo] else [])
  if items.isEmpty then [p1Fallback] else items

/-- Phase 2 of generateRecommendations: High-severity
failing-or-warning triggers for G36 and G56/G57, a severity-blind
failing-or-warning trigger for G06, and the unconditional creative
refresh item appended last. -/
def phase2Items (categories : List Category) : List String :=
  let highFails := (failedChecksOf categories).filter (fun c => c.severity == "High")
  (if highFails.any (fun c => c.id == "G36") then [p2SmartBidding] else []) ++
  (if highFails.any (fun c => c.id == "G56" || c.id == "G57") then [p2Audience] else []) ++
  (if (failedChecksOf categories).any (fun c => c.id == "G06") then [p2PMax] else []) ++
  [p2Creative]

/-- Phase 3 of generateRecommendations, conditioned on the snapshot. -/
def phase3Items (snapshot : Snapshot) : List String :=
  (match snapshot.searchImpressionShare with
   | some v => if v ≠ 0 ∧ v < 50 then [p3ImpShareLow v] else [p3Generic]
   | none => [p3Generic]) ++
  (if snapshot.conversions30d > 15 then [p3Volume snapshot.conversions30d] else []) ++
  [p3DemandGen, p3ServerSide]

/-- generateRecommendations of the source (the industry argument is
accepted and unused, as in the source). -/
def generateRecommendations (categories : List Category) (industry : String)
    (snapshot : Snapshot) : List (String × List String) :=
  [("Phase 1: Fix the Foundation (Week 1)", phase1Items categories),
   ("Phase 2: Optimize & Expand (Weeks 2-3)", phase2Items categories),
   ("Phase 3: Scale (Month 2+)", phase3Items snapshot)]

-- ===== Theorems =====

def validSeverities : List String := ["Critical", "High", "Medium", "Low"]

def validResults : List String := ["PASS", "WARNING", "FAIL", "N/A"]

/-- Well-formedness of a check list: every severity and result string
comes from the fixed enumerations. -/
def wellFormedChecks (cat : Category) : Bool :=
  cat.checks.all (fun c => validSeverities.contains c.severity && validResults.contains c.result)

theorem severityWeight_pos (s : String) : 0 < severityWeight s := by
  unfold severityWeight; split_ifs <;> norm_num

theorem resultScore_nonneg (r : String) : 0 ≤ resultScore r := by
  unfold resultScore; split_ifs <;> norm_num

theorem resultScore_le_one (r : String) : resultScore r ≤ 1 := by
  unfold resultScore; split_ifs <;> norm_num

theorem possibleOf_pos {cs : List Check} (h : cs ≠ []) : 0 < possibleOf cs := by
  refine List.sum_pos _ (fun x hx => ?_) (by simpa using h)
  obtain ⟨c, _, rfl⟩ := List.mem_map.mp hx
  exact severityWeight_pos _

theorem earnedOf_nonneg (cs : List Check) : 0 ≤ earnedOf cs := by
  refine List.sum_nonneg (fun x hx => ?_)
  obtain ⟨c, _, rfl⟩ := List.mem_map.mp hx
  exact mul_nonneg (resultScore_nonneg _) (le_of_lt (severityWeight_pos _))

theorem earnedOf_le_possibleOf (cs : List Check) : earnedOf cs ≤ possibleOf cs := by
  refine List.sum_le_sum (fun c _ => ?_)
  calc resultScore c.result * severityWeight c.severity
      ≤ 1 * severityWeight c.severity :=
        mul_le_mul_of_nonneg_right (resultScore_le_one _) (le_of_lt (severityWeight_pos _))
    _ = severityWeight c.severity := one_mul _

/-- The property C1 asserts of the scorer on one category: N/A checks
are dropped; an all-N/A category scores null with grade N/A;
otherwise the score is the severity-weighted mean of the result
values scaled to 100 and rounded to one decimal, it lies in [0, 100],
and the grade is the fixed band of the score. -/
def scorerClaimProp (cat : Category) : Prop :=
  (validChecksOf cat = [] → scoreCategory cat = (none, "N/A")) ∧
  (validChecksOf cat ≠ [] →
    ∃ s : ℚ, scoreCategory cat = (some s, scoreToGrade (some s)) ∧
      s = (jsRound (100 * (earnedOf (validChecksOf cat) / possibleOf (validChecksOf cat)) * 10) : ℚ) / 10 ∧
      0 ≤ s ∧ s ≤ 100 ∧
      scoreToGrade (some s) =
        (if s ≥ 90 then "A" else if s ≥ 75 then "B" else if s ≥ 60 then "C"
         else if s ≥ 40 then "D" else "F"))

/-- C1: for every category whose checks carry the fixed severity and
result enumerations, the scorer drops N/A checks, scores null/N-A
when none remain, and otherwise scores the weighted mean rounded to
one decimal with the fixed tables (Critical 5, High 3, Medium 1.5,
Low 0.5; PASS 1, WARNING 0.5, FAIL 0), the score lies in [0, 100]
and the grade is the fixed band at 90/75/60/40. -/
theorem c1_scorer_category (cat : Category) (h : wellFormedChecks cat = true) :
    severityWeight "Critical" = 5 ∧ severityWeight "High" = 3 ∧
    severityWeight "Medium" = 3/2 ∧ severityWeight "Low" = 1/2 ∧
    resultScore "PASS" = 1 ∧ resultScore "WARNING" = 1/2 ∧ resultScore "FAIL" = 0 ∧
    scorerClaimProp cat := by
  refine ⟨by simp [severityWeight], by simp [severityWeight],
    by simp [severityWeight], by simp [severityWeight],
    by simp [resultScore], by simp [resultScore], by simp [resultScore], ?_, ?_⟩
  · intro h0
    simp [scoreCategory, h0]
  · intro hne
    have hp : 0 < possibleOf (validChecksOf cat) := possibleOf_pos hne
    have he0 : 0 ≤ earnedOf (validChecksOf cat) := earnedOf_nonneg _
    have hep : earnedOf (validChecksOf cat) ≤ possibleOf (validChecksOf cat) :=
      earnedOf_le_possibleOf _
    refine ⟨(jsRound (earnedOf (validChecksOf cat) / possibleOf (validChecksOf cat) * 1000) : ℚ) / 10,
      ?_, ?_, ?_, ?_, rfl⟩
    · rw [scoreCategory]
      simp only [List.isEmpty_iff]
      rw [if_neg hne, if_pos hp]
    · rw [show (100 : ℚ) * (earnedOf (validChecksOf cat) / possibleOf (validChecksOf cat)) * 10
        = earnedOf (validChecksOf cat) / possibleOf (validChecksOf cat) * 1000 by ring]
    · have : (0 : ℤ) ≤ jsRound (earnedOf (validChecksOf cat) / possibleOf (validChecksOf cat) * 1000) :=
        le_jsRound_of_le (by positivity)
      have h10 : (0 : ℚ) ≤ (jsRound (earnedOf (validChecksOf cat) / possibleOf (validChecksOf cat) * 1000) : ℚ) := by
        exact_mod_cast this
      linarith
    · have hr : earnedOf (validChecksOf cat) / possibleOf (validChecksOf cat) ≤ 1 :=
        (div_le_one hp).mpr hep
      have : jsRound (earnedOf (validChecksOf cat) / possibleOf (validChecksOf cat) * 1000) ≤ (1000 : ℤ) :=
        jsRound_le_of_le (by push_cast; linarith)
      have h10 : ((jsRound (earnedOf (validChecksOf cat) / possibleOf (validChecksOf cat) * 1000) : ℤ) : ℚ) ≤ 1000 := by
        exact_mod_cast this
      linarith

def c1WitnessCategory : Category :=
  { name := "Conversion Tracking", weight := "25%", checks := [
    { id := "G42", name := "Conversion actions defined", severity := "Critical",
      result := "PASS", finding := "ok" },
    { id := "G45", name := "Consent Mode v2 (EU/EEA)", severity := "Critical",
      result := "N/A", finding := "n/a" }] }

theorem c1_scorer_category_witness :
    wellFormedChecks c1WitnessCategory = true ∧
    (severityWeight "Critical" = 5 ∧ severityWeight "High" = 3 ∧
     severityWeight "Medium" = 3/2 ∧ severityWeight "Low" = 1/2 ∧
     resultScore "PASS" = 1 ∧ resultScore "WARNING" = 1/2 ∧ resultScore "FAIL" = 0 ∧
     scorerClaimProp c1WitnessCategory) :=
  ⟨by decide, c1_scorer_category c1WitnessCategory (by decide)⟩

/-- A scored category as the overall-score formula sees it: only the
name (for the weight lookup) and the nullable score matter. -/
def mkScored (name : String) (score : Option ℚ) : ScoredCategory :=
  { name := name, weight := "", checks := [], score := score, grade := "" }

/-- Numerator contribution of one category in the formula of the
claim: score times weight, or 0 for a null score. -/
def optNum (s : Option ℚ) (w : ℚ) : ℚ :=
  match s with | none => 0 | some v => v * w

/-- Denominator contribution of one category in the formula of the
claim: the weight, or 0 for a null score. -/
def optDen (s : Option ℚ) (w : ℚ) : ℚ :=
  match s with | none => 0 | some _ => w

/-- Numerator of the renormalized weighted mean of the claim over the
six fixed categories. -/
def sixNum (s1 s2 s3 s4 s5 s6 : Option ℚ) : ℚ :=
  optNum s1 (25/100) + (optNum s2 (20/100) + (optNum s3 (15/100) +
    (optNum s4 (15/100) + (optNum s5 (15/100) + optNum s6 (10/100)))))

/-- Denominator of the renormalized weighted mean of the claim over
the six fixed categories. -/
def sixDen (s1 s2 s3 s4 s5 s6 : Option ℚ) : ℚ :=
  optDen s1 (25/100) + (optDen s2 (20/100) + (optDen s3 (15/100) +
    (optDen s4 (15/100) + (optDen s5 (15/100) + optDen s6 (10/100)))))

/-- Weighted mean of five scores with the sixth (0.10-weight)
category null: original weights renormalized by 0.90. -/
def fiveMean (q1 q2 q3 q4 q5 : ℚ) : ℚ :=
  (q1 * (25/100) + (q2 * (20/100) + (q3 * (15/100) +
    (q4 * (15/100) + q5 * (15/100))))) / (90/100)

set_option maxHeartbeats 3200000 in
/-- C2: over the six fixed categories the health score is the rounded
weighted mean over the non-null scores only (weights 0.25, 0.20,
0.15, 0.15, 0.15, 0.10); with all six null it is 0 with grade F; and
with exactly the 0.10-weight category null it equals the weighted
mean of the other five renormalized by 0.90. -/
theorem c2_overall_health_score (s1 s2 s3 s4 s5 s6 : Option ℚ) (q1 q2 q3 q4 q5 : ℚ) :
    (calculateOverallScore
      [mkScored "Conversion Tracking" s1, mkScored "Wasted Spend / Negatives" s2,
       mkScored "Account Structure" s3, mkScored "Keywords & Quality Score" s4,
       mkScored "Ads & Assets" s5, mkScored "Settings & Targeting + Bidding" s6] =
      if s1 = none ∧ s2 = none ∧ s3 = none ∧ s4 = none ∧ s5 = none ∧ s6 = none then (0, "F")
      else
        ((jsRound (sixNum s1 s2 s3 s4 s5 s6 / sixDen s1 s2 s3 s4 s5 s6) : ℚ),
         scoreToGrade (some (jsRound (sixNum s1 s2 s3 s4 s5 s6 / sixDen s1 s2 s3 s4 s5 s6) : ℚ)))) ∧
    (calculateOverallScore
      [mkScored "Conversion Tracking" (some q1), mkScored "Wasted Spend / Negatives" (some q2),
       mkScored "Account Structure" (some q3), mkScored "Keywords & Quality Score" (some q4),
       mkScored "Ads & Assets" (some q5), mkScored "Settings & Targeting + Bidding" none] =
      ((jsRound (fiveMean q1 q2 q3 q4 q5) : ℚ),
       scoreToGrade (some (jsRound (fiveMean q1 q2 q3 q4 q5) : ℚ)))) := by
  constructor
  · rcases s1 with _ | v1 <;> rcases s2 with _ | v2 <;> rcases s3 with _ | v3 <;>
      rcases s4 with _ | v4 <;> rcases s5 with _ | v5 <;> rcases s6 with _ | v6 <;>
      simp [calculateOverallScore, categoryWeight, mkScored, optNum, optDen, sixNum, sixDen] <;>
      norm_num
  · simp [calculateOverallScore, categoryWeight, mkScored, fiveMean] <;> norm_num

def c3CategoryLowPass : Category :=
  { name := "Conversion Tracking", weight := "25%", checks := [
    { id := "X1", name := "x", severity := "Low", result := "PASS", finding := "f" }] }

def c3CategoryWithBogus : Category :=
  { name := "Conversion Tracking", weight := "25%", checks := [
    { id := "X1", name := "x", severity := "Low", result := "PASS", finding := "f" },
    { id := "X2", name := "y", severity := "Bogus", result := "FAIL", finding := "f" }] }

/-- C3 counterexample: under the claim an unknown-severity check
contributes weight 0 to both sums, so appending one to a category
could never change its score; in the code it carries weight 1.0
(SEVERITY[s] || 1.0) and does change the score: a lone Low PASS
scores 100/A, and adding one Bogus-severity FAIL drops the score to
33.3/F instead of leaving it at 100. -/
theorem c3_counterexample :
    severityWeight "Bogus" = 1 ∧
    scoreCategory c3CategoryLowPass = (some 100, "A") ∧
    scoreCategory c3CategoryWithBogus = (some (333/10), "F") ∧
    scoreCategory c3CategoryWithBogus ≠ scoreCategory c3CategoryLowPass := by
  have hA : scoreCategory c3CategoryLowPass = (some 100, "A") := by
    simp [scoreCategory, c3CategoryLowPass, validChecksOf, possibleOf, earnedOf,
      severityWeight, resultScore, scoreToGrade]
    all_goals norm_num [jsRound_eq_floor]
  have hB : scoreCategory c3CategoryWithBogus = (some (333/10), "F") := by
    simp [scoreCategory, c3CategoryWithBogus, validChecksOf, possibleOf, earnedOf,
      severityWeight, resultScore, scoreToGrade]
    all_goals norm_num [jsRound_eq_floor]
  exact ⟨by simp [severityWeight], hA, hB, by rw [hB, hA]; simp⟩

/-- C3 amended: a check whose severity string is outside
Critical/High/Medium/Low contributes severity weight 1.0 (not 0) to
both the earned and possible sums, and a check whose result string is
outside PASS/WARNING/FAIL (and not N/A) contributes result value 0;
each check contributes exactly its severity weight to the possible
sum and its result value times severity weight to the earned sum. -/
theorem c3_unknown_enum_fallbacks (s r : String)
    (hs1 : s ≠ "Critical") (hs2 : s ≠ "High") (hs3 : s ≠ "Medium") (hs4 : s ≠ "Low")
    (hr1 : r ≠ "PASS") (hr2 : r ≠ "WARNING") (hr3 : r ≠ "FAIL") (hr4 : r ≠ "N/A") :
    severityWeight s = 1 ∧ resultScore r = 0 ∧
    ∀ (c : Check) (cs : List Check),
      possibleOf (c :: cs) = severityWeight c.severity + possibleOf cs ∧
      earnedOf (c :: cs) = resultScore c.result * severityWeight c.severity + earnedOf cs := by
  refine ⟨by simp [severityWeight, hs1, hs2, hs3, hs4],
    by simp [resultScore, hr1, hr2], ?_⟩
  intro c cs
  exact ⟨by simp [possibleOf], by simp [earnedOf]⟩

theorem c3_unknown_enum_fallbacks_witness :
    (("Bogus" : String) ≠ "Critical" ∧ ("Bogus" : String) ≠ "High" ∧
     ("Bogus" : String) ≠ "Medium" ∧ ("Bogus" : String) ≠ "Low" ∧
     ("Unknown" : String) ≠ "PASS" ∧ ("Unknown" : String) ≠ "WARNING" ∧
     ("Unknown" : String) ≠ "FAIL" ∧ ("Unknown" : String) ≠ "N/A") ∧
    (severityWeight "Bogus" = 1 ∧ resultScore "Unknown" = 0 ∧
     ∀ (c : Check) (cs : List Check),
       possibleOf (c :: cs) = severityWeight c.severity + possibleOf cs ∧
       earnedOf (c :: cs) = resultScore c.result * severityWeight c.severity + earnedOf cs) :=
  ⟨by decide,
   c3_unknown_enum_fallbacks "Bogus" "Unknown" (by decide) (by decide) (by decide) (by decide)
     (by decide) (by decide) (by decide) (by decide)⟩

-- ===== C4: snapshot zero-denominator conventions =====

def qNonneg (o : Option ℚ) : Bool := decide (0 ≤ o.getD 0)

/-- Nonnegativity of the numeric metric fields of one row (true of
all real reporting data). -/
def metricsNonneg (r : MetricsRow) : Bool :=
  qNonneg (r.metrics.bind (·.impressions)) && qNonneg (r.metrics.bind (·.clicks)) &&
  qNonneg (r.metrics.bind (·.conversions)) && qNonneg (r.metrics.bind (·.conversionsValue)) &&
  qNonneg (r.metrics.bind (·.conversions_value)) && qNonneg (r.metrics.bind (·.costMicros)) &&
  qNonneg (r.metrics.bind (·.cost_micros))

theorem jsOrQ_getD_nonneg {a b : Option ℚ} (ha : 0 ≤ a.getD 0) (hb : 0 ≤ b.getD 0) :
    0 ≤ (jsOrQ a b).getD 0 := by
  rcases a with _ | v
  · simpa [jsOrQ] using hb
  · simp only [Option.getD_some] at ha
    by_cases hv : v = 0
    · simpa [jsOrQ, hv] using hb
    · simpa [jsOrQ, hv] using ha

theorem metrics_sums_nonneg {rows : List MetricsRow} (h : rows.all metricsNonneg = true) :
    0 ≤ totalImpressionsOf rows ∧ 0 ≤ totalClicksOf rows ∧
    0 ≤ totalConvOf rows ∧ 0 ≤ totalSpendOf rows := by
  have hmem : ∀ r ∈ rows, metricsNonneg r = true := by
    simpa [List.all_eq_true] using h
  have hfields : ∀ r ∈ rows, 0 ≤ (r.metrics.bind (·.impressions)).getD 0 ∧
      0 ≤ (r.metrics.bind (·.clicks)).getD 0 ∧ 0 ≤ (r.metrics.bind (·.conversions)).getD 0 ∧
      0 ≤ (r.metrics.bind (·.costMicros)).getD 0 ∧ 0 ≤ (r.metrics.bind (·.cost_micros)).getD 0 := by
    intro r hr
    have := hmem r hr
    simp [metricsNonneg, qNonneg, and_assoc] at this
    exact ⟨this.1, this.2.1, this.2.2.1, this.2.2.2.2.2.1, this.2.2.2.2.2.2⟩
  refine ⟨?_, ?_, ?_, ?_⟩
  · refine List.sum_nonneg fun x hx => ?_
    obtain ⟨r, hr, rfl⟩ := List.mem_map.mp hx
    exact (hfields r hr).1
  · refine List.sum_nonneg fun x hx => ?_
    obtain ⟨r, hr, rfl⟩ := List.mem_map.mp hx
    exact (hfields r hr).2.1
  · refine List.sum_nonneg fun x hx => ?_
    obtain ⟨r, hr, rfl⟩ := List.mem_map.mp hx
    exact (hfields r hr).2.2.1
  · refine List.sum_nonneg fun x hx => ?_
    obtain ⟨r, hr, rfl⟩ := List.mem_map.mp hx
    have hcm := (hfields r hr).2.2.2.1
    have hcs := (hfields r hr).2.2.2.2
    exact div_nonneg (jsOrQ_getD_nonneg hcm hcs) (by norm_num)

/-- The zero-denominator and impression-share conventions of
buildSnapshot, as amended: each ratio is the two-decimal rounding of
the quotient when the denominator is nonzero and 0 when it is zero;
the impression share is the two-decimal rounding of the first row of
the share times 100 when that share is present and nonzero, and null
both when it is absent and when it is a present zero. -/
def c4Prop (d : AccountDataset) : Prop :=
  (totalImpressionsOf (safeArray d.account_metrics) = 0 → (buildSnapshot d).ctr = 0) ∧
  (totalImpressionsOf (safeArray d.account_metrics) ≠ 0 →
    (buildSnapshot d).ctr = (jsRound (totalClicksOf (safeArray d.account_metrics) /
      totalImpressionsOf (safeArray d.account_metrics) * 10000) : ℚ) / 100) ∧
  (totalClicksOf (safeArray d.account_metrics) = 0 → (buildSnapshot d).avgCpc = 0) ∧
  (totalClicksOf (safeArray d.account_metrics) ≠ 0 →
    (buildSnapshot d).avgCpc = (jsRound (totalSpendOf (safeArray d.account_metrics) /
      totalClicksOf (safeArray d.account_metrics) * 100) : ℚ) / 100) ∧
  (totalSpendOf (safeArray d.account_metrics) = 0 → (buildSnapshot d).roas = 0) ∧
  (totalSpendOf (safeArray d.account_metrics) ≠ 0 →
    (buildSnapshot d).roas = (jsRound (totalConvValueOf (safeArray d.account_metrics) /
      totalSpendOf (safeArray d.account_metrics) * 100) : ℚ) / 100) ∧
  (totalConvOf (safeArray d.account_metrics) = 0 → (buildSnapshot d).cpa = 0) ∧
  (totalConvOf (safeArray d.account_metrics) ≠ 0 →
    (buildSnapshot d).cpa = (jsRound (totalSpendOf (safeArray d.account_metrics) /
      totalConvOf (safeArray d.account_metrics) * 100) : ℚ) / 100) ∧
  (∀ v : ℚ, sisSnapRawOf (safeArray d.account_metrics) = some v → v ≠ 0 →
    (buildSnapshot d).searchImpressionShare = some ((jsRound (v * 10000) : ℚ) / 100)) ∧
  (sisSnapRawOf (safeArray d.account_metrics) = none →
    (buildSnapshot d).searchImpressionShare = none) ∧
  (sisSnapRawOf (safeArray d.account_metrics) = some 0 →
    (buildSnapshot d).searchImpressionShare = none)

def c4CtrExample : AccountDataset :=
  { emptyDataset with account_metrics := some [⟨some
    { impressions := some 1000, clicks := some 25, conversions := none,
      conversionsValue := none, conversions_value := none, costMicros := none,
      cost_micros := none, searchImpressionShare := none, search_impression_share := none }⟩] }

/-- C4 amended: the snapshot derived-field conventions, with the
nonnegative-metrics hypothesis that makes the JS strict-positivity
guards coincide with zero tests, plus the CTR examples of the claim
(1000 impressions and 25 clicks give CTR 2.5; no impressions give
CTR 0, not null). -/
theorem c4_amended_snapshot (d : AccountDataset)
    (h : (safeArray d.account_metrics).all metricsNonneg = true) :
    c4Prop d ∧ (buildSnapshot c4CtrExample).ctr = 5/2 ∧ (buildSnapshot emptyDataset).ctr = 0 := by
  obtain ⟨hi, hc, hv, hs⟩ := metrics_sums_nonneg h
  refine ⟨⟨?_, ?_, ?_, ?_, ?_, ?_, ?_, ?_, ?_, ?_, ?_⟩, ?_, ?_⟩
  · intro h0; simp [buildSnapshot, h0]
  · intro h0
    have hpos : 0 < totalImpressionsOf (safeArray d.account_metrics) :=
      lt_of_le_of_ne hi (Ne.symm h0)
    simp [buildSnapshot, hpos]
  · intro h0; simp [buildSnapshot, h0]
  · intro h0
    have hpos : 0 < totalClicksOf (safeArray d.account_metrics) :=
      lt_of_le_of_ne hc (Ne.symm h0)
    simp [buildSnapshot, hpos]
  · intro h0; simp [buildSnapshot, h0]
  · intro h0
    have hpos : 0 < totalSpendOf (safeArray d.account_metrics) :=
      lt_of_le_of_ne hs (Ne.symm h0)
    simp [buildSnapshot, hpos]
  · intro h0; simp [buildSnapshot, h0]
  · intro h0
    have hpos : 0 < totalConvOf (safeArray d.account_metrics) :=
      lt_of_le_of_ne hv (Ne.symm h0)
    simp [buildSnapshot, hpos]
  · intro v hvr hvne; simp [buildSnapshot, sisSnapValueOf, hvr, hvne]
  · intro hvr; simp [buildSnapshot, sisSnapValueOf, hvr]
  · intro hvr; simp [buildSnapshot, sisSnapValueOf, hvr]
  · simp [buildSnapshot, c4CtrExample, emptyDataset, safeArray, totalImpressionsOf,
      totalClicksOf, totalSpendOf, totalConvOf]
    norm_num [jsRound_eq_floor]
  · simp [buildSnapshot, emptyDataset, safeArray, totalImpressionsOf]

def c4CexData : AccountDataset :=
  { emptyDataset with account_metrics := some [⟨some
    { impressions := none, clicks := none, conversions := none,
      conversionsValue := none, conversions_value := none, costMicros := none,
      cost_micros := none, searchImpressionShare := some 0, search_impression_share := none }⟩] }

/-- C4 counterexample: with a present zero impression share in the
first account-metric row, the snapshot reports null (the JS
truthiness test sis ? ... : null treats 0 as absent), so a present
zero share is not distinguished from an unknown one as the claim
requires. -/
theorem c4_counterexample :
    ((safeArray c4CexData.account_metrics).head?.bind
      (fun r => r.metrics.bind (·.searchImpressionShare))) = some 0 ∧
    (buildSnapshot c4CexData).searchImpressionShare = none ∧
    ¬ (buildSnapshot c4CexData).searchImpressionShare = some (0 * 100) := by
  refine ⟨?_, ?_, ?_⟩ <;>
    simp [buildSnapshot, c4CexData, emptyDataset, safeArray, sisSnapValueOf, sisSnapRawOf, jsOrQ]

theorem c4_amended_snapshot_witness :
    (safeArray c4CtrExample.account_metrics).all metricsNonneg = true ∧
    (c4Prop c4CtrExample ∧ (buildSnapshot c4CtrExample).ctr = 5/2 ∧
     (buildSnapshot emptyDataset).ctr = 0) :=
  ⟨by decide, c4_amended_snapshot c4CtrExample (by decide)⟩

-- ===== C5: phase 2 of the recommendations =====

/-- C5 amended: in phase 2 of the recommendations, the manual-bidding
and missing-audience paragraphs appear exactly when a High-severity
check with the corresponding id has result FAIL or WARNING; the
missing-PMax paragraph appears exactly when a check with id G06 of
any severity has result FAIL or WARNING; and the generic
creative-refresh recommendation is always the last item and appears
exactly once. -/
theorem c5_phase2_triggers (cats : List Category) (industry : String) (snap : Snapshot) :
    ((generateRecommendations cats industry snap).get? 1 =
      some ("Phase 2: Optimize & Expand (Weeks 2-3)", phase2Items cats)) ∧
    (p2SmartBidding ∈ phase2Items cats ↔
      ((failedChecksOf cats).filter (fun c => c.severity == "High")).any
        (fun c => c.id == "G36") = true) ∧
    (p2Audience ∈ phase2Items cats ↔
      ((failedChecksOf cats).filter (fun c => c.severity == "High")).any
        (fun c => c.id == "G56" || c.id == "G57") = true) ∧
    (p2PMax ∈ phase2Items cats ↔ (failedChecksOf cats).any (fun c => c.id == "G06") = true) ∧
    (phase2Items cats).getLast? = some p2Creative ∧
    (phase2Items cats).count p2Creative = 1 := by
  refine ⟨by simp [generateRecommendations], ?_, ?_, ?_, ?_, ?_⟩ <;>
  · cases hb1 : ((failedChecksOf cats).filter (fun c => c.severity == "High")).any
      (fun c => c.id == "G36") <;>
    cases hb2 : ((failedChecksOf cats).filter (fun c => c.severity == "High")).any
      (fun c => c.id == "G56" || c.id == "G57") <;>
    cases hb3 : (failedChecksOf cats).any (fun c => c.id == "G06") <;>
    simp [phase2Items, hb1, hb2, hb3, p2SmartBidding, p2Audience, p2PMax, p2Creative]

def c5CexCategories : List Category :=
  [{ name := "Settings & Targeting + Bidding", weight := "10%", checks := [
    { id := "G36", name := "Smart bidding strategy active", severity := "High",
      result := "WARNING", finding := "f" }] }]

/-- C5 counterexample: a category whose only check is the
High-severity G36 with result WARNING (no FAIL anywhere) still
produces the manual-bidding paragraph in phase 2, so the paragraph is
not present exactly when G36 is a High-severity FAIL. -/
theorem c5_counterexample :
    phase2Items c5CexCategories = [p2SmartBidding, p2Creative] ∧
    c5CexCategories.all (fun cat => cat.checks.all (fun c => c.result != "FAIL")) = true := by
  constructor
  · simp [phase2Items, c5CexCategories, failedChecksOf]
  · decide

-- ===== C6: quick-win selection =====

/-- C6: the quick-win list is the in-order collection of failing
Critical/High checks truncated to the first 7; hence its length is at
most 7 and every entry originates from a Critical- or High-severity
FAIL check of some category. -/
theorem c6_quick_wins (cats : List Category) :
    identifyQuickWins cats =
      ((cats.flatMap (fun cat => cat.checks.filter quickWinFilter)).map mkQuickWin).take 7 ∧
    (identifyQuickWins cats).length ≤ 7 ∧
    ∀ w ∈ identifyQuickWins cats, ∃ cat ∈ cats, ∃ c ∈ cat.checks,
      c.result = "FAIL" ∧ (c.severity = "Critical" ∨ c.severity = "High") ∧ w = mkQuickWin c := by
  refine ⟨rfl, ?_, ?_⟩
  · exact List.length_take_le 7 _
  · intro w hw
    have hw1 : w ∈ (cats.flatMap fun cat => cat.checks.filter quickWinFilter).map mkQuickWin :=
      List.take_subset 7 _ hw
    obtain ⟨c, hc, rfl⟩ := List.mem_map.mp hw1
    obtain ⟨cat, hcat, hcmem⟩ := List.mem_flatMap.mp hc
    obtain ⟨hmem, hf⟩ := List.mem_filter.mp hcmem
    simp [quickWinFilter] at hf
    exact ⟨cat, hcat, c, hmem, hf.1, hf.2, rfl⟩

def c6WitnessCategories : List Category :=
  [{ name := "Conversion Tracking", weight := "25%", checks := [
    { id := "G42", name := "Conversion actions defined", severity := "Critical",
      result := "FAIL", finding := "no tracking" }] }]

theorem c6_quick_wins_witness :
    identifyQuickWins c6WitnessCategories =
      ((c6WitnessCategories.flatMap (fun cat => cat.checks.filter quickWinFilter)).map mkQuickWin).take 7 ∧
    (identifyQuickWins c6WitnessCategories).length ≤ 7 ∧
    ∀ w ∈ identifyQuickWins c6WitnessCategories, ∃ cat ∈ c6WitnessCategories, ∃ c ∈ cat.checks,
      c.result = "FAIL" ∧ (c.severity = "Critical" ∨ c.severity = "High") ∧ w = mkQuickWin c :=
  c6_quick_wins c6WitnessCategories

-- ===== C7: duplicate-pattern detection =====

theorem fdp_foldl (names kws acc : List String) :
    kws.foldl (fun patterns kw =>
      let hits := names.filter (fun n => strContains n kw)
      if hits.length > 1 then
        patterns ++ [toString hits.length ++ "x \"" ++ kw ++ "\" actions"]
      else patterns) acc =
    acc ++ (kws.filter (fun kw => (names.filter (fun n => strContains n kw)).length > 1)).map
      (fun kw => toString (names.filter (fun n => strContains n kw)).length ++ "x \"" ++ kw ++ "\" actions") := by
  induction kws generalizing acc with
  | nil => simp
  | cons k ks ih =>
    simp only [List.foldl_cons, List.filter_cons]
    by_cases hk : (names.filter (fun n => strContains n k)).length > 1
    · rw [if_pos hk]
      rw [ih]
      simp [hk]
    · rw [if_neg hk]
      rw [ih]
      simp [hk]

def c7ExampleData : AccountDataset :=
  { emptyDataset with conversion_actions := some [
    ⟨some { name := some "Purchase - GA4", type := none, status := none,
            category := none, includeInConversionsMetric := none }⟩,
    ⟨some { name := some "Purchase - Shopify", type := none, status := none,
            category := none, includeInConversionsMetric := none }⟩,
    ⟨some { name := some "Lead Form", type := none, status := none,
            category := none, includeInConversionsMetric := none }⟩] }

/-- C7: the duplicate detector reports, for each fixed keyword in
order, one pattern carrying the count of lowercased names containing
it whenever that count exceeds 1; the duplicate-counting check G-CT1
is PASS at 0 patterns, WARNING at exactly 1 and FAIL at 2 or more;
and on the names Purchase - GA4, Purchase - Shopify and Lead Form the
detector finds exactly the purchase pattern with count 2 and the
check result is WARNING. -/
theorem c7_duplicate_patterns (names : List String) (d : AccountDataset) :
    (findDuplicatePatterns names =
      (dupKeywords.filter (fun kw => (names.filter (fun n => strContains n kw)).length > 1)).map
        (fun kw => toString (names.filter (fun n => strContains n kw)).length ++ "x \"" ++ kw ++ "\" actions")) ∧
    (((checkConversionTracking d).checks.map (fun c => (c.id, c.result))).get? 8 =
      some ("G-CT1",
        if (findDuplicatePatterns (ctActionNames (safeArray d.conversion_actions))).length = 0 then "PASS"
        else if (findDuplicatePatterns (ctActionNames (safeArray d.conversion_actions))).length ≤ 1 then "WARNING"
        else "FAIL")) ∧
    (findDuplicatePatterns (["Purchase - GA4", "Purchase - Shopify", "Lead Form"].map lowerStr) =
      ["2x \"purchase\" actions"]) ∧
    (((checkConversionTracking c7ExampleData).checks.map (fun c => (c.id, c.result))).get? 8 =
      some ("G-CT1", "WARNING")) := by
  refine ⟨?_, ?_, ?_, ?_⟩
  · simpa using fdp_foldl names dupKeywords []
  · simp [checkConversionTracking]
  · decide
  · decide

-- ===== C8 and C10: product analysis =====

theorem spendDesc_total : ∀ a b : ShoppingRow, spendDesc a b ∨ spendDesc b a :=
  fun a b => (le_total (shoppingSpend b) (shoppingSpend a)).imp id id

theorem roasDesc_total : ∀ a b : ShoppingRow, roasDesc a b ∨ roasDesc b a :=
  fun a b => (le_total (perfRoasKey b) (perfRoasKey a)).imp id id

/-- C8 property of the product analyzer on one dataset: list lengths
at most 8 and 5; every top-wasted entry comes from a zero-conversion
row with spend above 10 dollars; every top-performing entry comes
from a converting row; the top-wasted entries are sorted descending
by spend; and the top-performing list is the first five of the rows
sorted descending by the division-guarded ROAS key. -/
def c8Prop (d : AccountDataset) : Prop :=
  (analyzeProducts d).1.length ≤ 8 ∧ (analyzeProducts d).2.length ≤ 5 ∧
  (∀ e ∈ (analyzeProducts d).1, ∃ r ∈ safeArray d.shopping_performance,
    shoppingConversions r = 0 ∧ shoppingSpend r > 10 ∧ e = mkWasted r) ∧
  (∀ e ∈ (analyzeProducts d).2, ∃ r ∈ safeArray d.shopping_performance,
    shoppingConversions r > 0 ∧ e = mkPerforming r) ∧
  List.Pairwise (fun a b : WastedProduct => b.spend ≤ a.spend) (analyzeProducts d).1 ∧
  List.Pairwise roasDesc
    (List.take 5 (List.insertionSort roasDesc
      ((safeArray d.shopping_performance).filter (fun r => decide (shoppingConversions r > 0))))) ∧
  (analyzeProducts d).2 =
    (List.take 5 (List.insertionSort roasDesc
      ((safeArray d.shopping_performance).filter (fun r => decide (shoppingConversions r > 0))))).map mkPerforming

def c8RowA : ShoppingRow :=
  ⟨some { productItemId := none, productTitle := some "Widget A", product_title := none },
   some { impressions := none, clicks := none, conversions := some 0,
          conversionsValue := none, conversions_value := none,
          costMicros := some 50000000, cost_micros := none,
          searchImpressionShare := none, search_impression_share := none }⟩

def c8RowB : ShoppingRow :=
  ⟨some { productItemId := none, productTitle := some "Widget B", product_title := none },
   some { impressions := none, clicks := none, conversions := some 3,
          conversionsValue := some 100000000, conversions_value := none,
          costMicros := some 20000000, cost_micros := none,
          searchImpressionShare := none, search_impression_share := none }⟩

def c8ExampleData : AccountDataset :=
  { emptyDataset with shopping_performance := some [c8RowA, c8RowB] }

/-- C8: the product analyzer obeys c8Prop on every dataset, and on
the two-row example of the claim (a zero-conversion 50-dollar row and
a 3-conversion 20-dollar 100-value row) it produces exactly the
Widget A wasted entry and the Widget B performing entry with ROAS 5. -/
theorem c8_analyze_products (d : AccountDataset) :
    c8Prop d ∧
    analyzeProducts c8ExampleData =
      ([{ product := "Widget A", spend := 50, conversions := 0, value := 0 }],
       [{ product := "Widget B", spend := 20, conversions := 3, value := 100, roas := 5 }]) := by
  haveI hts : IsTotal ShoppingRow spendDesc := ⟨spendDesc_total⟩
  haveI htrs : IsTrans ShoppingRow spendDesc := ⟨fun _ _ _ h1 h2 => le_trans h2 h1⟩
  haveI htr : IsTotal ShoppingRow roasDesc := ⟨roasDesc_total⟩
  haveI htrr : IsTrans ShoppingRow roasDesc := ⟨fun _ _ _ h1 h2 => le_trans h2 h1⟩
  constructor
  · by_cases hp : (safeArray d.shopping_performance).length = 0
    · have hnil : safeArray d.shopping_performance = [] := List.length_eq_zero.mp hp
      refine ⟨?_, ?_, ?_, ?_, ?_, ?_, ?_⟩ <;>
        simp [c8Prop, analyzeProducts, hp, hnil]
    · have ha : analyzeProducts d =
        (((List.insertionSort spendDesc ((safeArray d.shopping_performance).filter wastedFilter)).take 8).map mkWasted,
         ((List.insertionSort roasDesc ((safeArray d.shopping_performance).filter
           (fun r => decide (shoppingConversions r > 0)))).take 5).map mkPerforming) := by
        simp [analyzeProducts, hp]
      refine ⟨?_, ?_, ?_, ?_, ?_, ?_, ?_⟩
      · rw [ha]
        simpa using List.length_take_le 8 _
      · rw [ha]
        simpa using List.length_take_le 5 _
      · rw [ha]
        intro e he
        simp only at he
        obtain ⟨r, hr, rfl⟩ := List.mem_map.mp he
        have hr2 : r ∈ List.insertionSort spendDesc
            ((safeArray d.shopping_performance).filter wastedFilter) :=
          List.take_subset 8 _ hr
        have hr3 : r ∈ (safeArray d.shopping_performance).filter wastedFilter :=
          (List.perm_insertionSort spendDesc _).mem_iff.mp hr2
        obtain ⟨hmem, hf⟩ := List.mem_filter.mp hr3
        simp [wastedFilter] at hf
        exact ⟨r, hmem, hf.1, hf.2, rfl⟩
      · rw [ha]
        intro e he
        simp only at he
        obtain ⟨r, hr, rfl⟩ := List.mem_map.mp he
        have hr2 : r ∈ List.insertionSort roasDesc
            ((safeArray d.shopping_performance).filter (fun r => decide (shoppingConversions r > 0))) :=
          List.take_subset 5 _ hr
        have hr3 : r ∈ (safeArray d.shopping_performance).filter
            (fun r => decide (shoppingConversions r > 0)) :=
          (List.perm_insertionSort roasDesc _).mem_iff.mp hr2
        obtain ⟨hmem, hf⟩ := List.mem_filter.mp hr3
        simp at hf
        exact ⟨r, hmem, hf, rfl⟩
      · rw [ha]
        have hsorted : List.Pairwise spendDesc
            (List.insertionSort spendDesc ((safeArray d.shopping_performance).filter wastedFilter)) :=
          List.sorted_insertionSort spendDesc _
        have htake : List.Pairwise spendDesc
            ((List.insertionSort spendDesc ((safeArray d.shopping_performance).filter wastedFilter)).take 8) :=
          hsorted.sublist (List.take_sublist 8 _)
        refine List.pairwise_map.mpr (htake.imp ?_)
        intro a b hab
        have : jsRound (shoppingSpend b * 100) ≤ jsRound (shoppingSpend a * 100) :=
          jsRound_mono (by unfold spendDesc at hab; linarith)
        simp only [mkWasted]
        have hcast : ((jsRound (shoppingSpend b * 100) : ℤ) : ℚ) ≤
            ((jsRound (shoppingSpend a * 100) : ℤ) : ℚ) := by exact_mod_cast this
        linarith
      · have hsorted : List.Pairwise roasDesc
            (List.insertionSort roasDesc ((safeArray d.shopping_performance).filter
              (fun r => decide (shoppingConversions r > 0)))) :=
          List.sorted_insertionSort roasDesc _
        exact hsorted.sublist (List.take_sublist 5 _)
      · rw [ha]
  · have hwA : wastedFilter c8RowA = true := by
      norm_num [wastedFilter, c8RowA, shoppingConversions, shoppingSpend, jsOrQ, microsToDollars]
    have hwB : wastedFilter c8RowB = false := by
      norm_num [wastedFilter, c8RowB, shoppingConversions, shoppingSpend, jsOrQ, microsToDollars]
    have hpA : (decide (shoppingConversions c8RowA > 0)) = false := by
      norm_num [c8RowA, shoppingConversions]
    have hpB : (decide (shoppingConversions c8RowB > 0)) = true := by
      norm_num [c8RowB, shoppingConversions]
    have hmkA : mkWasted c8RowA =
        { product := "Widget A", spend := 50, conversions := 0, value := 0 } := by
      simp [mkWasted, c8RowA, shoppingSpend, jsOrQ, microsToDollars, jsStr]
      norm_num [jsRound_eq_floor]
    have hmkB : mkPerforming c8RowB =
        { product := "Widget B", spend := 20, conversions := 3, value := 100, roas := 5 } := by
      simp [mkPerforming, c8RowB, shoppingSpend, shoppingValue, jsOrQ, microsToDollars, jsStr]
      norm_num [jsRound_eq_floor]
    simp [analyzeProducts, c8ExampleData, emptyDataset, safeArray, hwA, hwB, hpA, hpB,
      List.insertionSort, List.orderedInsert, hmkA, hmkB]

theorem c8_analyze_products_witness :
    c8Prop c8ExampleData ∧
    analyzeProducts c8ExampleData =
      ([{ product := "Widget A", spend := 50, conversions := 0, value := 0 }],
       [{ product := "Widget B", spend := 20, conversions := 3, value := 100, roas := 5 }]) :=
  c8_analyze_products c8ExampleData

theorem map_mkWasted_conv_value (l : List ShoppingRow) :
    (l.map mkWasted).map (fun e => (e.conversions, e.value)) =
    List.replicate l.length ((0 : ℚ), (0 : ℚ)) := by
  induction l with
  | nil => rfl
  | cons a t ih => simp [List.replicate_succ, mkWasted] at ih ⊢; exact ih

def c10Row : ShoppingRow :=
  ⟨some { productItemId := none, productTitle := some "Widget C", product_title := none },
   some { impressions := none, clicks := none, conversions := some 0,
          conversionsValue := some 99000000, conversions_value := none,
          costMicros := some 20000000, cost_micros := none,
          searchImpressionShare := none, search_impression_share := none }⟩

def c10ExampleData : AccountDataset :=
  { emptyDataset with shopping_performance := some [c10Row] }

/-- C10: every top-wasted entry reports conversions 0 and value 0 as
constants; on a zero-conversion row that carries the nonzero
underlying conversion value 99,000,000 micros, only name and rounded
spend are copied and the reported value is still 0. -/
theorem c10_wasted_constants (d : AccountDataset) :
    ((analyzeProducts d).1.map (fun e => (e.conversions, e.value)) =
      List.replicate (analyzeProducts d).1.length ((0 : ℚ), (0 : ℚ))) ∧
    analyzeProducts c10ExampleData =
      ([{ product := "Widget C", spend := 20, conversions := 0, value := 0 }], []) := by
  constructor
  · by_cases hp : (safeArray d.shopping_performance).length = 0
    · simp [analyzeProducts, hp]
    · have ha : (analyzeProducts d).1 =
          ((List.insertionSort spendDesc ((safeArray d.shopping_performance).filter wastedFilter)).take 8).map mkWasted := by
        simp [analyzeProducts, hp]
      rw [ha, map_mkWasted_conv_value]
      simp
  · have hw : wastedFilter c10Row = true := by
      norm_num [wastedFilter, c10Row, shoppingConversions, shoppingSpend, jsOrQ, microsToDollars]
    have hpf : (decide (shoppingConversions c10Row > 0)) = false := by
      norm_num [c10Row, shoppingConversions]
    have hmk : mkWasted c10Row =
        { product := "Widget C", spend := 20, conversions := 0, value := 0 } := by
      simp [mkWasted, c10Row, shoppingSpend, jsOrQ, microsToDollars, jsStr]
      norm_num [jsRound_eq_floor]
    simp [analyzeProducts, c10ExampleData, emptyDataset, safeArray, hw, hpf,
      List.insertionSort, List.orderedInsert, hmk]

-- ===== C9: evaluator totality, fixed rule-id sets, N/A on absent data =====

/-- C9: each evaluator is a total function of the dataset (absent or
malformed entries enter only through safeArray, which maps them to
the empty list), the rule-id list of every category is fixed and
independent of the data, and on the fully absent dataset the checks
are still all present, with the data-dependent ones N/A or failing
rather than omitted (the Keywords category is entirely N/A). -/
theorem c9_evaluators_fixed_ids (d : AccountDataset) (α : Type) (l : List α) :
    safeArray (none : Option (List α)) = [] ∧ safeArray (some l) = l ∧
    (checkConversionTracking d).checks.map (·.id) =
      ["G42", "G43", "G44", "G45", "G46", "G47", "G48", "G49", "G-CT1", "G-CT2", "G-CT3"] ∧
    (checkWastedSpend d).checks.map (·.id) =
      ["G13", "G14", "G15", "G16", "G17", "G18", "G19", "G-WS1"] ∧
    (checkAccountStructure d).checks.map (·.id) =
      ["G01", "G02", "G03", "G04", "G05", "G06", "G07", "G08", "G09", "G10", "G11", "G12"] ∧
    (checkKeywordsQS d).checks.map (·.id) = ["G20-G25", "G-KW1", "G-KW2"] ∧
    (checkAdsAssets d).checks.map (·.id) =
      ["G26-G30", "G31-G34", "G35", "G-AD1", "G-AD2", "G-PM1", "G-PM2", "G-PM3", "G-PM4", "G-PM5"] ∧
    (checkSettingsTargeting d).checks.map (·.id) =
      ["G36", "G39", "G40", "G50", "G51", "G52", "G53", "G54", "G56", "G57"] ∧
    (checkKeywordsQS emptyDataset).checks.map (fun c => (c.id, c.result)) =
      [("G20-G25", "N/A"), ("G-KW1", "N/A"), ("G-KW2", "N/A")] ∧
    (checkConversionTracking emptyDataset).checks.map (fun c => (c.id, c.result)) =
      [("G42", "FAIL"), ("G43", "FAIL"), ("G44", "FAIL"), ("G45", "N/A"), ("G46", "N/A"),
       ("G47", "PASS"), ("G48", "N/A"), ("G49", "N/A"), ("G-CT1", "PASS"), ("G-CT2", "WARNING"),
       ("G-CT3", "FAIL")] ∧
    (checkWastedSpend emptyDataset).checks.map (fun c => (c.id, c.result)) =
      [("G13", "N/A"), ("G14", "FAIL"), ("G15", "FAIL"), ("G16", "N/A"), ("G17", "N/A"),
       ("G18", "N/A"), ("G19", "N/A"), ("G-WS1", "N/A")] ∧
    (checkAccountStructure emptyDataset).checks.map (fun c => (c.id, c.result)) =
      [("G01", "PASS"), ("G02", "PASS"), ("G03", "N/A"), ("G04", "PASS"), ("G05", "FAIL"),
       ("G06", "FAIL"), ("G07", "N/A"), ("G08", "N/A"), ("G09", "N/A"), ("G10", "N/A"),
       ("G11", "WARNING"), ("G12", "N/A")] ∧
    (checkAdsAssets emptyDataset).checks.map (fun c => (c.id, c.result)) =
      [("G26-G30", "N/A"), ("G31-G34", "N/A"), ("G35", "N/A"), ("G-AD1", "FAIL"),
       ("G-AD2", "N/A"), ("G-PM1", "N/A"), ("G-PM2", "N/A"), ("G-PM3", "N/A"),
       ("G-PM4", "N/A"), ("G-PM5", "N/A")] ∧
    (checkSettingsTargeting emptyDataset).checks.map (fun c => (c.id, c.result)) =
      [("G36", "FAIL"), ("G39", "N/A"), ("G40", "PASS"), ("G50", "FAIL"), ("G51", "FAIL"),
       ("G52", "FAIL"), ("G53", "FAIL"), ("G54", "FAIL"), ("G56", "FAIL"), ("G57", "FAIL")] := by
  refine ⟨rfl, rfl, rfl, ?_, rfl, ?_, ?_, rfl, ?_, ?_, ?_, ?_, ?_, ?_⟩
  · unfold checkWastedSpend
    by_cases hp : (safeArray d.shopping_performance).length > 0 <;> simp [hp]
  · unfold checkKeywordsQS
    rw [apply_ite (fun cat : Category => cat.checks.map (·.id))]
    split <;> rfl
  · simp only [checkAdsAssets]
    split <;> rfl
  · decide
  · decide
  · decide
  · decide
  · decide
  · decide
